import Mathlib

/-! CG3 ray tracer (`src/CG3/main.cpp`): shallow embedding and verified properties.

The C++ `float` is idealised as an arbitrary linearly ordered field `α` (exact
arithmetic, no NaN or rounding).  The global scene variables of `main.cpp`
(`spheres`, `triangles`, `lights`, `camera`, `bgColor`) are collected in an
explicit read-only `Scene` value.  The functions of the GLM library that the
file calls but does not define (`sqrt`, `powf`, `glm::intersectRaySphere`,
`glm::intersectRayTriangle`) are taken as a parameter `Glm α`.

Functions whose loops or recursion are not structurally bounded carry a fuel
argument and return `none` when the fuel runs out.
-/

namespace CG3

/-! ## Vectors (`glm::vec3`) -/

/-- The type `glm::vec3` (aliases `Vec3` and `Color` in `main.cpp`). -/
structure Vec3 (α : Type) where
  x : α
  y : α
  z : α
deriving DecidableEq

/-- The alias `typedef glm::vec3 Color`. -/
abbrev Color (α : Type) := Vec3 α

section VectorOps

variable {α : Type}

/-- Componentwise `vec3 + vec3`. -/
def Vec3.add [Add α] (a b : Vec3 α) : Vec3 α := ⟨a.x + b.x, a.y + b.y, a.z + b.z⟩

/-- Componentwise `vec3 - vec3`. -/
def Vec3.sub [Sub α] (a b : Vec3 α) : Vec3 α := ⟨a.x - b.x, a.y - b.y, a.z - b.z⟩

/-- Componentwise `vec3 * vec3` (GLM multiplies vectors component by component). -/
def Vec3.mul [Mul α] (a b : Vec3 α) : Vec3 α := ⟨a.x * b.x, a.y * b.y, a.z * b.z⟩

/-- Unary minus `-vec3`. -/
def Vec3.neg [Neg α] (a : Vec3 α) : Vec3 α := ⟨-a.x, -a.y, -a.z⟩

/-- Scaling `vec3 * float` (and `float * vec3`). -/
def Vec3.scale [Mul α] (a : Vec3 α) (s : α) : Vec3 α := ⟨a.x * s, a.y * s, a.z * s⟩

/-- The constructor `Color(s)` that copies one scalar into all three components. -/
def Vec3.splat (s : α) : Vec3 α := ⟨s, s, s⟩

instance [Add α] : Add (Vec3 α) := ⟨Vec3.add⟩
instance [Sub α] : Sub (Vec3 α) := ⟨Vec3.sub⟩
instance [Mul α] : Mul (Vec3 α) := ⟨Vec3.mul⟩
instance [Neg α] : Neg (Vec3 α) := ⟨Vec3.neg⟩

/-- GLM `glm::dot`. -/
def dot [Add α] [Mul α] (a b : Vec3 α) : α := a.x * b.x + a.y * b.y + a.z * b.z

/-- GLM `glm::reflect(I, N) = I - N * dot(N, I) * 2`. -/
def reflect [Add α] [Sub α] [Mul α] [OfNat α 2] (i n : Vec3 α) : Vec3 α :=
  i - (n.scale (dot n i)).scale 2

end VectorOps

/-! ## The GLM functions used by `main.cpp` -/

/-- The library functions that `main.cpp` calls and that are not part of the
repository.  `intersectRaySphere rayFrom dir center radius` yields the output
parameters `(pos, norm)` when the C++ function returns `true`;
`intersectRayTriangle rayFrom dir v0 v1 v2` yields `baryPos`. -/
structure Glm (α : Type) where
  sqrt : α → α
  powf : α → α → α
  intersectRaySphere : Vec3 α → Vec3 α → Vec3 α → α → Option (Vec3 α × Vec3 α)
  intersectRayTriangle : Vec3 α → Vec3 α → Vec3 α → Vec3 α → Vec3 α → Option (Vec3 α)

section Defs

variable {α : Type} [LinearOrderedField α]

/-- GLM `glm::length(v) = sqrt(dot(v, v))`. -/
def length (G : Glm α) (v : Vec3 α) : α := G.sqrt (dot v v)

/-- GLM `glm::distance(p0, p1) = length(p1 - p0)`. -/
def distance (G : Glm α) (p0 p1 : Vec3 α) : α := length G (p1 - p0)

/-- GLM `glm::normalize(v) = v * inversesqrt(dot(v, v))`. -/
def normalize (G : Glm α) (v : Vec3 α) : Vec3 α := v.scale (1 / G.sqrt (dot v v))

/-- The constant `std::numeric_limits<float>::max()`, `(2 - 2^-23) * 2^127`. -/
def FLT_MAX : α := 340282346638528859811704183484516925440

/-! ## Data model (`main.cpp` lines 16-77) -/

/-- The enumeration `ObjectType`. -/
inductive ObjectType where
  | INVALID
  | SPHERE
  | TRIANGLE
deriving DecidableEq

/-- The struct `ObjectId`. -/
structure ObjectId where
  type : ObjectType
  index : Int
deriving DecidableEq

/-- The value-initialised `ObjectId` written `{}` in the source. -/
def ObjectId.none : ObjectId := ⟨ObjectType.INVALID, 0⟩

/-- The struct `Material`. -/
structure Material (α : Type) where
  ambientFactor : Vec3 α
  diffuseFactor : Vec3 α
  specularFactor : Vec3 α
  shininess : α
  reflectionFactor : α
  refract : Bool
  refraction : α
  refractionFactor : α

/-- The struct `Sphere`; the shared `Material *` is read-only during rendering
and is represented by the material it points to. -/
structure Sphere (α : Type) where
  center : Vec3 α
  radius : α
  material : Material α

/-- The struct `Triangle` (`vertex[0]`, `vertex[1]`, `vertex[2]`). -/
structure Triangle (α : Type) where
  vertex0 : Vec3 α
  vertex1 : Vec3 α
  vertex2 : Vec3 α
  norm : Vec3 α
  material : Material α

/-- The struct `Camera` (the field `at` is spelled `at_`: `at` is reserved in Lean). -/
structure Camera (α : Type) where
  position : Vec3 α
  at_ : Vec3 α
  up : Vec3 α
  zNear : α
  zFar : α
  fovy : α
  aspect : α

/-- The enumeration `LightType`. -/
inductive LightType where
  | POINT
  | DIRECTIONAL
deriving DecidableEq

/-- The struct `Light`. -/
structure Light (α : Type) where
  type : LightType
  position : Vec3 α
  intensity : α
  color : Color α

/-- The global variables `spheres`, `triangles`, `lights`, `camera`, `bgColor`. -/
structure Scene (α : Type) where
  spheres : List (Sphere α)
  triangles : List (Triangle α)
  lights : List (Light α)
  camera : Camera α
  bgColor : Color α

/-- The constant `DEPTH_LIMIT`. -/
def DEPTH_LIMIT : Int := 4

/-! ## `findNearestObject` (lines 79-126) -/

/-- The output parameters of `findNearestObject` as written at a hit. -/
structure Hit (α : Type) where
  id : ObjectId
  pos : Vec3 α
  norm : Vec3 α
  mat : Material α
  isInside : Bool

/-- The local state of `findNearestObject`: `nearestDist` and, once `found` is
set, the output parameters (`found` is `hit.isSome`). -/
structure NearState (α : Type) where
  nearestDist : α
  hit : Option (Hit α)

/-- Lines 83-87: the two `continue` guards of the sphere loop. -/
def sphereSkipped (excludeObjectID : ObjectId) (excludeTransparentMat : Bool)
    (i : Nat) (obj : Sphere α) : Bool :=
  (decide (excludeObjectID.type = ObjectType.SPHERE) && decide ((i : Int) = excludeObjectID.index))
    || (excludeTransparentMat && obj.material.refract)

/-- Lines 89-99: the intersection test of sphere `i`, with the distance that is
compared and the values that would be written to the output parameters. -/
def sphereCand (G : Glm α) (rayFrom dir : Vec3 α) (i : Nat) (obj : Sphere α) :
    Option (α × Hit α) :=
  match G.intersectRaySphere rayFrom dir obj.center obj.radius with
  | some (pos, norm) =>
    some (distance G rayFrom pos,
      { id := ⟨ObjectType.SPHERE, (i : Int)⟩, pos := pos, norm := norm, mat := obj.material,
        isInside := decide (distance G rayFrom obj.center < obj.radius) })
  | none => none

/-- Lines 91-100: the update guarded by `distance < nearestDist`. -/
def pick (st : NearState α) (c : α × Hit α) : NearState α :=
  if c.1 < st.nearestDist then { nearestDist := c.1, hit := some c.2 } else st

/-- One iteration of the sphere loop (lines 82-102). -/
def sphereStep (G : Glm α) (rayFrom dir : Vec3 α) (excludeObjectID : ObjectId)
    (excludeTransparentMat : Bool) (i : Nat) (obj : Sphere α) (st : NearState α) :
    NearState α :=
  if sphereSkipped excludeObjectID excludeTransparentMat i obj then st
  else
    match sphereCand G rayFrom dir i obj with
    | some c => pick st c
    | none => st

/-- The sphere loop `for (int i = 0; i < spheres.size(); i++)`, started at index `i`. -/
def sphereLoop (G : Glm α) (rayFrom dir : Vec3 α) (excludeObjectID : ObjectId)
    (excludeTransparentMat : Bool) : Nat → List (Sphere α) → NearState α → NearState α
  | _, [], st => st
  | i, obj :: rest, st =>
    sphereLoop G rayFrom dir excludeObjectID excludeTransparentMat (i + 1) rest
      (sphereStep G rayFrom dir excludeObjectID excludeTransparentMat i obj st)

/-- Lines 104-108: the two `continue` guards of the triangle loop. -/
def triangleSkipped (excludeObjectID : ObjectId) (excludeTransparentMat : Bool)
    (i : Nat) (obj : Triangle α) : Bool :=
  (decide (excludeObjectID.type = ObjectType.TRIANGLE) && decide ((i : Int) = excludeObjectID.index))
    || (excludeTransparentMat && obj.material.refract)

/-- Lines 110-121: the intersection test of triangle `i`; the distance is
`baryPos.z`. -/
def triangleCand (G : Glm α) (rayFrom dir : Vec3 α) (i : Nat) (obj : Triangle α) :
    Option (α × Hit α) :=
  match G.intersectRayTriangle rayFrom dir obj.vertex0 obj.vertex1 obj.vertex2 with
  | some baryPos =>
    some (baryPos.z,
      { id := ⟨ObjectType.TRIANGLE, (i : Int)⟩, pos := rayFrom + dir.scale baryPos.z,
        norm := obj.norm, mat := obj.material, isInside := false })
  | none => none

/-- One iteration of the triangle loop (lines 103-124). -/
def triangleStep (G : Glm α) (rayFrom dir : Vec3 α) (excludeObjectID : ObjectId)
    (excludeTransparentMat : Bool) (i : Nat) (obj : Triangle α) (st : NearState α) :
    NearState α :=
  if triangleSkipped excludeObjectID excludeTransparentMat i obj then st
  else
    match triangleCand G rayFrom dir i obj with
    | some c => pick st c
    | none => st

/-- The triangle loop `for (int i = 0; i < triangles.size(); i++)`, started at index `i`. -/
def triangleLoop (G : Glm α) (rayFrom dir : Vec3 α) (excludeObjectID : ObjectId)
    (excludeTransparentMat : Bool) : Nat → List (Triangle α) → NearState α → NearState α
  | _, [], st => st
  | i, obj :: rest, st =>
    triangleLoop G rayFrom dir excludeObjectID excludeTransparentMat (i + 1) rest
      (triangleStep G rayFrom dir excludeObjectID excludeTransparentMat i obj st)

/-- The function `findNearestObject`: `some hit` when it returns `true` (with
the output parameters), `none` when it returns `false`. -/
def findNearestObject (S : Scene α) (G : Glm α) (rayFrom normalizedRayDir : Vec3 α)
    (excludeObjectID : ObjectId) (excludeTransparentMat : Bool) : Option (Hit α) :=
  (triangleLoop G rayFrom normalizedRayDir excludeObjectID excludeTransparentMat 0 S.triangles
    (sphereLoop G rayFrom normalizedRayDir excludeObjectID excludeTransparentMat 0 S.spheres
      { nearestDist := FLT_MAX, hit := none })).hit

/-- The function `isShaded` (lines 128-134). -/
def isShaded (S : Scene α) (G : Glm α) (rayFrom normalizedRayDir : Vec3 α)
    (excludeObjectID : ObjectId) : Bool :=
  (findNearestObject S G rayFrom normalizedRayDir excludeObjectID true).isSome

/-! ## `_renderPixel` (lines 136-187) -/

/-- Lines 149-154: the direction toward a light from the point `pos`. -/
def lightDirection (G : Glm α) (light : Light α) (pos : Vec3 α) : Vec3 α :=
  match light.type with
  | LightType.POINT => normalize G (light.position - pos)
  | LightType.DIRECTIONAL => -light.position

/-- Lines 156-160: the diffuse term `Color(s * intensity) * light.color * diffuseFactor`. -/
def diffuseTerm (light : Light α) (m : Material α) (s : α) : Color α :=
  Vec3.splat (s * light.intensity) * light.color * m.diffuseFactor

/-- Lines 162-166: the specular term
`Color(powf(t, shininess) * intensity) * light.color * specularFactor`. -/
def specularTerm (G : Glm α) (light : Light α) (m : Material α) (t : α) : Color α :=
  Vec3.splat (G.powf t m.shininess * light.intensity) * light.color * m.specularFactor

/-- Lines 148-167: the body of the loop over the lights, applied to the
accumulated color `c`. -/
def lightStep (S : Scene α) (G : Glm α) (h : Hit α) (reflectionDir : Vec3 α)
    (c : Color α) (light : Light α) : Color α :=
  let lightDir := lightDirection G light h.pos
  let s := dot h.norm lightDir
  let c1 := if s > 0 ∧ isShaded S G h.pos lightDir h.id = false
    then c + diffuseTerm light h.mat s else c
  let t := dot lightDir reflectionDir
  if t > 0 ∧ isShaded S G h.pos reflectionDir h.id = false
    then c1 + specularTerm G light h.mat t else c1

/-- Lines 145-168: the color before the recursive terms are added. -/
def localColor (S : Scene α) (G : Glm α) (normalizedRayDir : Vec3 α) (h : Hit α) : Color α :=
  let c := S.bgColor * h.mat.ambientFactor
  let reflectionDir := normalize G (reflect normalizedRayDir h.norm)
  if h.mat.refract = false then S.lights.foldl (lightStep S G h reflectionDir) c else c

/-- Lines 174-176: the normal `N`, negated when `isInside`. -/
def refractionNormal (h : Hit α) : Vec3 α :=
  if h.isInside then h.norm.scale (-1) else h.norm

/-- Lines 177-180: the refraction direction, present only when `cosT2 > 0`. -/
def refractionDir (G : Glm α) (n : α) (normalizedRayDir N : Vec3 α) : Option (Vec3 α) :=
  let cosI := -dot N normalizedRayDir
  let cosT2 := 1 - n * n * (1 - cosI * cosI)
  if cosT2 > 0 then
    some (normalizedRayDir.scale n + N.scale (n * cosI - G.sqrt cosT2))
  else none

/-- The body of `_renderPixel`, with the recursive calls made through `self`. -/
def renderPixelBody (S : Scene α) (G : Glm α)
    (self : Vec3 α → Vec3 α → ObjectId → Int → α → Option (Color α))
    (rayFrom normalizedRayDir : Vec3 α) (prevObjectID : ObjectId) (depth : Int) (rIndex : α) :
    Option (Color α) :=
  match findNearestObject S G rayFrom normalizedRayDir prevObjectID false with
  | none => some S.bgColor
  | some h =>
    let c := localColor S G normalizedRayDir h
    let reflectionDir := normalize G (reflect normalizedRayDir h.norm)
    if depth < DEPTH_LIMIT then
      match self h.pos reflectionDir h.id (depth + 1) rIndex with
      | none => none
      | some r1 =>
        let c1 := c + r1.scale h.mat.reflectionFactor
        if h.mat.refract then
          match refractionDir G (rIndex / h.mat.refraction) normalizedRayDir
              (refractionNormal h) with
          | some rdir =>
            match self (h.pos + rdir.scale (1 / 100000)) rdir ObjectId.none (depth + 1)
                h.mat.refraction with
            | none => none
            | some r2 => some (c1 + r2.scale h.mat.refractionFactor)
          | none => some c1
        else some c1
    else some c

/-- The function `_renderPixel`; `none` only when `fuel` nested calls do not suffice. -/
def _renderPixel (S : Scene α) (G : Glm α) :
    Nat → Vec3 α → Vec3 α → ObjectId → Int → α → Option (Color α)
  | 0 => fun _ _ _ _ _ => none
  | fuel + 1 => renderPixelBody S G (_renderPixel S G fuel)

/-- The function `renderPixel` (lines 189-191). -/
def renderPixel (S : Scene α) (G : Glm α) (fuel : Nat) (p : Vec3 α) : Option (Color α) :=
  _renderPixel S G fuel S.camera.position (normalize G (p - S.camera.position))
    ObjectId.none 0 1

/-- The arguments of one call of `_renderPixel`. -/
structure PixelCall (α : Type) where
  rayFrom : Vec3 α
  normalizedRayDir : Vec3 α
  prevObjectID : ObjectId
  depth : Int
  rIndex : α

/-- The recursive calls that the body of `_renderPixel` issues for the call
`a` (line 171, then line 182), in program order. -/
def recursiveCalls (S : Scene α) (G : Glm α) (a : PixelCall α) : List (PixelCall α) :=
  match findNearestObject S G a.rayFrom a.normalizedRayDir a.prevObjectID false with
  | none => []
  | some h =>
    if a.depth < DEPTH_LIMIT then
      { rayFrom := h.pos, normalizedRayDir := normalize G (reflect a.normalizedRayDir h.norm),
        prevObjectID := h.id, depth := a.depth + 1, rIndex := a.rIndex } ::
      (if h.mat.refract then
        match refractionDir G (a.rIndex / h.mat.refraction) a.normalizedRayDir
            (refractionNormal h) with
        | some rdir =>
          [{ rayFrom := h.pos + rdir.scale (1 / 100000), normalizedRayDir := rdir,
             prevObjectID := ObjectId.none, depth := a.depth + 1, rIndex := h.mat.refraction }]
        | none => []
      else [])
    else []

end Defs

/-! ## `_render` and `render` (lines 193-216) -/

/-- The constant `ntasks` of `render`. -/
def ntasks : Int := 4

/-- The buffer indices `y * width + x` written by the inner loop of `_render`
for row `y`, for `x = 0, ..., width - 1`. -/
def rowIndices (width y : Int) : List Int :=
  (List.range width.toNat).map (fun (x : Nat) => y * width + (x : Int))

/-- The function `_render(pixels, width, starty, endy, ...)`, as the buffer
indices `y * width + x` it assigns, in program order (rows `starty, ...,
endy - 1`). -/
def _render (width starty endy : Int) : List Int :=
  (List.range (endy - starty).toNat).flatMap
    (fun (k : Nat) => rowIndices width (starty + (k : Int)))

/-- The band loop of `render`,
`for (int y = 0; y < height; y += height / ntasks)`, continued from `y`: the
`(starty, endy)` arguments of the `_render` tasks it launches, in order.
`none` when the loop has not ended after `fuel` iterations. -/
def renderBands (height : Int) : Nat → Int → Option (List (Int × Int))
  | 0, _ => none
  | fuel + 1, y =>
    if y < height then
      (renderBands height fuel (y + Int.tdiv height ntasks)).map
        (fun bands => (y, y + Int.tdiv height ntasks) :: bands)
    else some []

/-- The function `render(pixels, width, height)`: the `(starty, endy)` bands of
the `_render` tasks it launches, from `y = 0`. -/
def render (height : Int) (fuel : Nat) : Option (List (Int × Int)) :=
  renderBands height fuel 0

/-- The buffer indices assigned by each task launched by
`render(pixels, width, height)`, one list per task. -/
def renderWrites (width height : Int) (fuel : Nat) : Option (List (List Int)) :=
  (render height fuel).map (fun bands => bands.map (fun b => _render width b.1 b.2))

/-! ## Specification-level definitions -/

section SpecDefs

variable {α : Type} [LinearOrderedField α]

/-- Both loops of `findNearestObject` as one scan: `cand i obj` is the tested
candidate of element `i`, absent when the element is skipped or missed. -/
def scanLoop {β : Type} (cand : Nat → β → Option (α × Hit α)) :
    Nat → List β → NearState α → NearState α
  | _, [], st => st
  | i, obj :: rest, st =>
    scanLoop cand (i + 1) rest
      (match cand i obj with
       | some c => pick st c
       | none => st)

/-- The candidate of sphere `i`: none when a `continue` guard fires or the test fails. -/
def sphereOpt (G : Glm α) (rayFrom dir : Vec3 α) (excludeObjectID : ObjectId)
    (excludeTransparentMat : Bool) (i : Nat) (obj : Sphere α) : Option (α × Hit α) :=
  if sphereSkipped excludeObjectID excludeTransparentMat i obj then none
  else sphereCand G rayFrom dir i obj

/-- The candidate of triangle `i`: none when a `continue` guard fires or the test fails. -/
def triangleOpt (G : Glm α) (rayFrom dir : Vec3 α) (excludeObjectID : ObjectId)
    (excludeTransparentMat : Bool) (i : Nat) (obj : Triangle α) : Option (α × Hit α) :=
  if triangleSkipped excludeObjectID excludeTransparentMat i obj then none
  else triangleCand G rayFrom dir i obj

/-- The loop invariant of `findNearestObject`: relative to the candidates
`Seen` so far, either nothing below the sentinel `D` was seen and the state is
untouched, or the state holds a seen candidate of least distance and, among
those, of least rank. -/
def Good (rk : Hit α → Nat) (D : α) (Seen : α → Hit α → Prop) (st : NearState α) : Prop :=
  (st.hit = none ∧ st.nearestDist = D ∧ ∀ d h, Seen d h → D ≤ d) ∨
  (∃ h, st.hit = some h ∧ Seen st.nearestDist h ∧ st.nearestDist < D ∧
    ∀ d h2, Seen d h2 → st.nearestDist ≤ d ∧ (d = st.nearestDist → rk h ≤ rk h2))

/-- Sphere `i` of the scene passes its intersection test for the ray, at the
compared distance `d`, and `h` holds the values the code would report for it. -/
def SphereHit (S : Scene α) (G : Glm α) (rayFrom dir : Vec3 α) (i : Nat) (d : α)
    (h : Hit α) : Prop :=
  ∃ obj pos norm, S.spheres[i]? = some obj ∧
    G.intersectRaySphere rayFrom dir obj.center obj.radius = some (pos, norm) ∧
    d = distance G rayFrom pos ∧
    h = { id := ⟨ObjectType.SPHERE, (i : Int)⟩, pos := pos, norm := norm, mat := obj.material,
          isInside := decide (distance G rayFrom obj.center < obj.radius) }

/-- Triangle `i` of the scene passes its intersection test for the ray, at the
compared distance `d = baryPos.z`, and `h` holds the values the code would
report for it. -/
def TriangleHit (S : Scene α) (G : Glm α) (rayFrom dir : Vec3 α) (i : Nat) (d : α)
    (h : Hit α) : Prop :=
  ∃ obj baryPos, S.triangles[i]? = some obj ∧
    G.intersectRayTriangle rayFrom dir obj.vertex0 obj.vertex1 obj.vertex2 = some baryPos ∧
    d = baryPos.z ∧
    h = { id := ⟨ObjectType.TRIANGLE, (i : Int)⟩, pos := rayFrom + dir.scale baryPos.z,
          norm := obj.norm, mat := obj.material, isInside := false }

/-- A primitive is admissible when it is not the excluded id and, if
`excludeTransparentMat` is set, its material is not refractive. -/
def Admissible (excludeObjectID : ObjectId) (excludeTransparentMat : Bool) (id : ObjectId)
    (m : Material α) : Prop :=
  id ≠ excludeObjectID ∧ (excludeTransparentMat = true → m.refract = false)

/-- Some admissible primitive passes its intersection test at distance `d`, with
reported values `h`. -/
def IsCandidate (S : Scene α) (G : Glm α) (rayFrom dir : Vec3 α) (excludeObjectID : ObjectId)
    (excludeTransparentMat : Bool) (d : α) (h : Hit α) : Prop :=
  ((∃ i, SphereHit S G rayFrom dir i d h) ∨ (∃ i, TriangleHit S G rayFrom dir i d h)) ∧
    Admissible excludeObjectID excludeTransparentMat h.id h.mat

/-- The position of a primitive in the iteration order of `findNearestObject`:
spheres by increasing index, then triangles by increasing index. -/
def iterationRank (S : Scene α) (id : ObjectId) : Nat :=
  match id.type with
  | ObjectType.SPHERE => id.index.toNat
  | ObjectType.TRIANGLE => S.spheres.length + id.index.toNat
  | ObjectType.INVALID => 0

/-- The final state of `findNearestObject` (before `found` is returned). -/
def nearestState (S : Scene α) (G : Glm α) (rayFrom dir : Vec3 α) (ex : ObjectId)
    (exT : Bool) : NearState α :=
  triangleLoop G rayFrom dir ex exT 0 S.triangles
    (sphereLoop G rayFrom dir ex exT 0 S.spheres { nearestDist := FLT_MAX, hit := none })

/-- The relation "the body of `_renderPixel` run for `a` calls `_renderPixel`
with arguments `b`". -/
def Calls (S : Scene α) (G : Glm α) (a b : PixelCall α) : Prop :=
  b ∈ recursiveCalls S G a

/-- The call `a` of `_renderPixel` leads, through nested recursive calls, to the call `b`. -/
def Reaches (S : Scene α) (G : Glm α) (a b : PixelCall α) : Prop :=
  Relation.ReflTransGen (Calls S G) a b

/-- Two materials agree on every field except `reflectionFactor`,
`refraction` and `refractionFactor`. -/
def Material.sameLocal (m m2 : Material α) : Prop :=
  m.ambientFactor = m2.ambientFactor ∧ m.diffuseFactor = m2.diffuseFactor ∧
  m.specularFactor = m2.specularFactor ∧ m.shininess = m2.shininess ∧
  m.refract = m2.refract

/-- Two spheres agree up to the recursion fields of their materials. -/
def Sphere.sameLocal (a b : Sphere α) : Prop :=
  a.center = b.center ∧ a.radius = b.radius ∧ a.material.sameLocal b.material

/-- Two triangles agree up to the recursion fields of their materials. -/
def Triangle.sameLocal (a b : Triangle α) : Prop :=
  a.vertex0 = b.vertex0 ∧ a.vertex1 = b.vertex1 ∧ a.vertex2 = b.vertex2 ∧ a.norm = b.norm ∧
  a.material.sameLocal b.material

/-- Two scenes agree up to the values of `reflectionFactor`, `refraction` and
`refractionFactor` of their materials. -/
def Scene.sameLocal (S S2 : Scene α) : Prop :=
  List.Forall₂ Sphere.sameLocal S.spheres S2.spheres ∧
  List.Forall₂ Triangle.sameLocal S.triangles S2.triangles ∧
  S.lights = S2.lights ∧ S.bgColor = S2.bgColor

/-- Two hit records agree up to the recursion fields of the material. -/
def Hit.sameLocal (h h2 : Hit α) : Prop :=
  h.id = h2.id ∧ h.pos = h2.pos ∧ h.norm = h2.norm ∧ h.isInside = h2.isInside ∧
  h.mat.sameLocal h2.mat

/-- Two optional hit records agree up to the recursion fields of the material. -/
def optSameLocal : Option (Hit α) → Option (Hit α) → Prop
  | none, none => True
  | some h, some h2 => h.sameLocal h2
  | _, _ => False

/-- Two loop states of `findNearestObject` agree up to the recursion fields. -/
def NearState.sameLocal (st st2 : NearState α) : Prop :=
  st.nearestDist = st2.nearestDist ∧ optSameLocal st.hit st2.hit

end SpecDefs

/-! ## A concrete instance over the rationals

The general theorems below hold for every `G : Glm α`.  To evaluate the
definitions on concrete scenes, `glmQ` instantiates the GLM interface over `ℚ`
after the GLM 0.9 sources of `glm::cross`, `glm::intersectRaySphere` and
`glm::intersectRayTriangle` (a library outside the repository), with a square
root that is exact on squares of rationals. -/

/-- GLM `glm::cross`. -/
def cross {α : Type} [Sub α] [Mul α] (x y : Vec3 α) : Vec3 α :=
  ⟨x.y * y.z - y.y * x.z, x.z * y.x - y.z * x.x, x.x * y.y - y.x * x.y⟩

/-- The largest `r` with `r * r ≤ n`. -/
def natSqrt (n : Nat) : Nat := ((List.range (n + 1)).filter (fun r => r * r ≤ n)).length - 1

/-- Square root on `ℚ`, exact on squares of rationals. -/
def sqrtQ (q : ℚ) : ℚ := (natSqrt q.num.toNat : ℚ) / (natSqrt q.den : ℚ)

/-- The constant `std::numeric_limits<float>::epsilon()`, `2^-23`. -/
def epsilonQ : ℚ := 1 / 8388608

/-- GLM `glm::intersectRayTriangle(orig, dir, v0, v1, v2, baryPosition)`:
back faces are culled and `baryPosition.z` is the distance along the ray. -/
def intersectRayTriangleQ (orig dir v0 v1 v2 : Vec3 ℚ) : Option (Vec3 ℚ) :=
  let e1 := v1 - v0
  let e2 := v2 - v0
  let p := cross dir e2
  let a := dot e1 p
  if a < epsilonQ then none
  else
    let f := 1 / a
    let s := orig - v0
    let bx := f * dot s p
    if bx < 0 then none
    else if bx > 1 then none
    else
      let q := cross s e1
      let by_ := f * dot dir q
      if by_ < 0 then none
      else if by_ + bx > 1 then none
      else
        let bz := f * dot e2 q
        if bz ≥ 0 then some ⟨bx, by_, bz⟩ else none

/-- GLM `glm::intersectRaySphere(rayStarting, rayNormalizedDirection,
sphereCenter, sphereRadius, intersectionPosition, intersectionNormal)`. -/
def intersectRaySphereQ (rayStarting dir center : Vec3 ℚ) (radius : ℚ) :
    Option (Vec3 ℚ × Vec3 ℚ) :=
  let diff := center - rayStarting
  let t0 := dot diff dir
  let dSquared := dot diff diff - t0 * t0
  if dSquared > radius * radius then none
  else
    let t1 := sqrtQ (radius * radius - dSquared)
    let d := if t0 > t1 + epsilonQ then t0 - t1 else t0 + t1
    if d > epsilonQ then
      let pos := rayStarting + dir.scale d
      some (pos, ⟨(pos - center).x / radius, (pos - center).y / radius,
        (pos - center).z / radius⟩)
    else none

/-- The GLM interface over `ℚ` (`powf` for natural exponents). -/
def glmQ : Glm ℚ :=
  { sqrt := sqrtQ, powf := fun t s => t ^ s.num.toNat,
    intersectRaySphere := intersectRaySphereQ, intersectRayTriangle := intersectRayTriangleQ }

/-- An opaque material with a specular highlight. -/
def matte : Material ℚ :=
  { ambientFactor := ⟨1/4, 1/4, 1/4⟩, diffuseFactor := ⟨1/2, 1/2, 1/2⟩,
    specularFactor := ⟨1, 1, 1⟩, shininess := 2, reflectionFactor := 1/5, refract := false,
    refraction := 1, refractionFactor := 0 }

/-- An opaque material without specular highlight. -/
def chalk : Material ℚ :=
  { ambientFactor := ⟨1/4, 1/4, 1/4⟩, diffuseFactor := ⟨1/2, 1/2, 1/2⟩,
    specularFactor := ⟨0, 0, 0⟩, shininess := 2, reflectionFactor := 1/5, refract := false,
    refraction := 1, refractionFactor := 0 }

/-- A refractive material. -/
def glass : Material ℚ :=
  { ambientFactor := ⟨1/4, 1/4, 1/4⟩, diffuseFactor := ⟨2/5, 2/5, 2/5⟩,
    specularFactor := ⟨3/4, 3/4, 3/4⟩, shininess := 2, reflectionFactor := 0, refract := true,
    refraction := 3/2, refractionFactor := 1 }

/-- A camera at `(0, 1, 0)` looking down at the origin. -/
def cameraQ : Camera ℚ :=
  { position := ⟨0, 1, 0⟩, at_ := ⟨0, 0, 0⟩, up := ⟨0, 0, 1⟩, zNear := 1, zFar := 10,
    fovy := 60, aspect := 1 }

/-- The point light at `(3, 4, 0)`. -/
def lampQ : Light ℚ :=
  { type := LightType.POINT, position := ⟨3, 4, 0⟩, intensity := 1, color := ⟨1, 1, 1⟩ }

/-- The floor triangle in the plane `y = 0`, facing up. -/
def floorQ (m : Material ℚ) : Triangle ℚ :=
  { vertex0 := ⟨-4, 0, -4⟩, vertex1 := ⟨-4, 0, 12⟩, vertex2 := ⟨12, 0, -4⟩, norm := ⟨0, 1, 0⟩,
    material := m }

/-- An opaque triangle in the plane `x = 3/2`, facing the origin; it crosses the
segment from the origin to the lamp at `(3/2, 2, 0)`. -/
def screenQ : Triangle ℚ :=
  { vertex0 := ⟨3/2, 1, -1⟩, vertex1 := ⟨3/2, 1, 1⟩, vertex2 := ⟨3/2, 3, 0⟩,
    norm := ⟨-1, 0, 0⟩, material := matte }

/-- Shadow scene: a floor, a screen between the floor point `(0, 0, 0)` and the
lamp, and a far sphere. -/
def sceneQ : Scene ℚ :=
  { spheres := [⟨⟨0, 1, 10⟩, 1, matte⟩],
    triangles := [floorQ matte, screenQ],
    lights := [lampQ],
    camera := cameraQ,
    bgColor := ⟨1, 1, 1⟩ }

/-- Open scene: a chalk floor lit by the lamp, nothing in between. -/
def sceneOpen : Scene ℚ :=
  { spheres := [],
    triangles := [floorQ chalk],
    lights := [lampQ],
    camera := cameraQ,
    bgColor := ⟨1, 1, 1⟩ }

/-- A front-facing triangle in the plane `z = -FLT_MAX`. -/
def farTriangle : Triangle ℚ :=
  { vertex0 := ⟨-1/4, -1/4, -FLT_MAX⟩, vertex1 := ⟨3/4, -1/4, -FLT_MAX⟩,
    vertex2 := ⟨-1/4, 3/4, -FLT_MAX⟩, norm := ⟨0, 0, 1⟩, material := matte }

/-- Scene with the single triangle `farTriangle`. -/
def sceneFar : Scene ℚ :=
  { spheres := [],
    triangles := [farTriangle],
    lights := [],
    camera := cameraQ,
    bgColor := ⟨1, 1, 1⟩ }

/-- The values reported for the ray from `(0, 1, 0)` straight down in `sceneQ`:
the floor, hit at the origin. -/
def floorHit (m : Material ℚ) : Hit ℚ :=
  { id := ⟨ObjectType.TRIANGLE, 0⟩, pos := ⟨0, 0, 0⟩, norm := ⟨0, 1, 0⟩, mat := m,
    isInside := false }

/-- The values `farTriangle` would report for the ray from the origin along `-z`. -/
def farHit : Hit ℚ :=
  { id := ⟨ObjectType.TRIANGLE, 0⟩, pos := ⟨0, 0, -FLT_MAX⟩, norm := ⟨0, 0, 1⟩, mat := matte,
    isInside := false }

/-- A hit on a glass sheet with stored normal `(0, 0, 1)`. -/
def sheetHit : Hit ℚ :=
  { id := ⟨ObjectType.TRIANGLE, 0⟩, pos := ⟨0, 0, 0⟩, norm := ⟨0, 0, 1⟩, mat := glass,
    isInside := false }


/-! ## Definitions for the sign invariant and further concrete scenes -/

/-- Every component of the vector is non-negative. -/
def Vec3.NonNeg {α : Type} [LinearOrderedField α] (v : Vec3 α) : Prop :=
  0 ≤ v.x ∧ 0 ≤ v.y ∧ 0 ≤ v.z

/-- The color factors and the recursion weights of the material are non-negative. -/
def Material.NonNeg {α : Type} [LinearOrderedField α] (m : Material α) : Prop :=
  m.ambientFactor.NonNeg ∧ m.diffuseFactor.NonNeg ∧ m.specularFactor.NonNeg ∧
  0 ≤ m.reflectionFactor ∧ 0 ≤ m.refractionFactor

/-- The background color, the color and intensity of every light and the
factors of every material of the scene are non-negative. -/
def Scene.NonNeg {α : Type} [LinearOrderedField α] (S : Scene α) : Prop :=
  S.bgColor.NonNeg ∧
  (∀ l ∈ S.lights, 0 ≤ l.intensity ∧ l.color.NonNeg) ∧
  (∀ o ∈ S.spheres, o.material.NonNeg) ∧
  (∀ o ∈ S.triangles, o.material.NonNeg)

/-- Glass scene: a refractive floor under the lamp. -/
def sceneGlass : Scene ℚ :=
  { spheres := [],
    triangles := [floorQ glass],
    lights := [lampQ],
    camera := cameraQ,
    bgColor := ⟨1, 1, 1⟩ }

/-- Inside scene: the ray origin `(0, 1, 0)` lies inside a sphere of radius 5
around the origin, above the floor. -/
def sceneInside : Scene ℚ :=
  { spheres := [⟨⟨0, 0, 0⟩, 5, matte⟩],
    triangles := [floorQ matte],
    lights := [lampQ],
    camera := cameraQ,
    bgColor := ⟨1, 1, 1⟩ }

/-- An opaque triangle in the plane `x = 6`, facing the origin; it crosses the
ray from the origin through the lamp at `(6, 8, 0)`, beyond the lamp. -/
def backdropQ : Triangle ℚ :=
  { vertex0 := ⟨6, 7, -1⟩, vertex1 := ⟨6, 7, 1⟩, vertex2 := ⟨6, 9, 0⟩,
    norm := ⟨-1, 0, 0⟩, material := matte }

/-- Backdrop scene: a chalk floor, the lamp at distance 5 from the floor point
`(0, 0, 0)`, and the backdrop at distance 10 behind the lamp. -/
def sceneBehind : Scene ℚ :=
  { spheres := [],
    triangles := [floorQ chalk, backdropQ],
    lights := [lampQ],
    camera := cameraQ,
    bgColor := ⟨1, 1, 1⟩ }

/-- Bright scene: a matte floor lit by the lamp, nothing in between. -/
def sceneBright : Scene ℚ :=
  { spheres := [],
    triangles := [floorQ matte],
    lights := [lampQ],
    camera := cameraQ,
    bgColor := ⟨1, 1, 1⟩ }

/-- The values the sphere of `sceneInside` would report for the ray from
`(0, 1, 0)` straight down: its far side at `(0, -5, 0)`, seen from inside. -/
def insideSphereHit : Hit ℚ :=
  { id := ⟨ObjectType.SPHERE, 0⟩, pos := ⟨0, -5, 0⟩, norm := ⟨0, -1, 0⟩, mat := matte,
    isInside := true }

/-- The values the backdrop reports for the ray from the origin toward the lamp. -/
def backdropHit : Hit ℚ :=
  { id := ⟨ObjectType.TRIANGLE, 1⟩, pos := ⟨6, 8, 0⟩, norm := ⟨-1, 0, 0⟩, mat := matte,
    isInside := false }


/-! # Theorems -/

section Theorems

variable {α : Type} [LinearOrderedField α]

theorem sphereLoop_eq_scan (G : Glm α) (rayFrom dir : Vec3 α) (ex : ObjectId) (exT : Bool)
    (l : List (Sphere α)) : ∀ (i : Nat) (st : NearState α),
    sphereLoop G rayFrom dir ex exT i l st = scanLoop (sphereOpt G rayFrom dir ex exT) i l st := by
  induction l with
  | nil => intro i st; rfl
  | cons obj rest ih =>
    intro i st
    simp only [sphereLoop, scanLoop, ih]
    congr 1
    unfold sphereStep sphereOpt
    split <;> rfl

theorem triangleLoop_eq_scan (G : Glm α) (rayFrom dir : Vec3 α) (ex : ObjectId) (exT : Bool)
    (l : List (Triangle α)) : ∀ (i : Nat) (st : NearState α),
    triangleLoop G rayFrom dir ex exT i l st
      = scanLoop (triangleOpt G rayFrom dir ex exT) i l st := by
  induction l with
  | nil => intro i st; rfl
  | cons obj rest ih =>
    intro i st
    simp only [triangleLoop, scanLoop, ih]
    congr 1
    unfold triangleStep triangleOpt
    split <;> rfl

theorem good_congr {rk : Hit α → Nat} {D : α} {Seen Seen2 : α → Hit α → Prop}
    {st : NearState α} (hg : Good rk D Seen st) (hiff : ∀ d h, Seen d h ↔ Seen2 d h) :
    Good rk D Seen2 st := by
  have : Seen = Seen2 := by funext d h; exact propext (hiff d h)
  rw [← this]; exact hg

theorem good_pick {rk : Hit α → Nat} {D : α} {Seen : α → Hit α → Prop} {st : NearState α}
    (hg : Good rk D Seen st) (c : α × Hit α)
    (hlast : ∀ d h, Seen d h → rk h ≤ rk c.2) :
    Good rk D (fun d h => Seen d h ∨ (d, h) = c) (pick st c) := by
  obtain ⟨cd, ch⟩ := c
  unfold CG3.pick
  simp only
  rcases hg with ⟨hnone, hD, hall⟩ | ⟨h, hsome, hseen, hlt, hall⟩
  · by_cases hc : cd < st.nearestDist
    · rw [if_pos hc]
      right
      refine ⟨ch, rfl, Or.inr rfl, hD ▸ hc, ?_⟩
      intro d h2 hs
      rcases hs with hs | hs
      · have := hall d h2 hs
        have hcD : cd < D := hD ▸ hc
        exact ⟨le_of_lt (lt_of_lt_of_le hcD this), fun he => by
          have he2 : d = cd := he
          subst he2
          exact absurd this (not_le.mpr hcD)⟩
      · cases hs
        exact ⟨le_refl _, fun _ => le_refl _⟩
    · rw [if_neg hc]
      left
      refine ⟨hnone, hD, ?_⟩
      intro d h2 hs
      rcases hs with hs | hs
      · exact hall d h2 hs
      · cases hs
        exact hD ▸ not_lt.mp hc
  · by_cases hc : cd < st.nearestDist
    · rw [if_pos hc]
      right
      refine ⟨ch, rfl, Or.inr rfl, lt_trans hc hlt, ?_⟩
      intro d h2 hs
      rcases hs with hs | hs
      · have := (hall d h2 hs).1
        exact ⟨le_of_lt (lt_of_lt_of_le hc this), fun he => by
          have he2 : d = cd := he
          subst he2
          exact absurd this (not_le.mpr hc)⟩
      · cases hs
        exact ⟨le_refl _, fun _ => le_refl _⟩
    · rw [if_neg hc]
      right
      refine ⟨h, hsome, Or.inl hseen, hlt, ?_⟩
      intro d h2 hs
      rcases hs with hs | hs
      · exact hall d h2 hs
      · cases hs
        exact ⟨not_lt.mp hc, fun _ => hlast _ _ hseen⟩

theorem scanLoop_good {β : Type} (rk : Hit α → Nat) (D : α)
    (cand : Nat → β → Option (α × Hit α)) (off : Nat)
    (hrk : ∀ i obj d h, cand i obj = some (d, h) → rk h = off + i) :
    ∀ (l : List β) (i : Nat) (st : NearState α) (Seen : α → Hit α → Prop),
      Good rk D Seen st → (∀ d h, Seen d h → rk h < off + i) →
      Good rk D (fun d h => Seen d h ∨ ∃ k obj, l[k]? = some obj ∧ cand (i + k) obj = some (d, h))
        (scanLoop cand i l st) := by
  intro l
  induction l with
  | nil =>
    intro i st Seen hg _
    refine good_congr hg ?_
    intro d h
    simp
  | cons obj rest ih =>
    intro i st Seen hg hb
    simp only [scanLoop]
    cases hc : cand i obj with
    | none =>
      simp only
      have hb2 : ∀ d h, Seen d h → rk h < off + (i + 1) := fun d h hs => by
        have := hb d h hs; omega
      refine good_congr (ih (i + 1) st Seen hg hb2) ?_
      intro d h
      constructor
      · rintro (hs | ⟨k, o, hk, hco⟩)
        · exact Or.inl hs
        · refine Or.inr ⟨k + 1, o, by simpa using hk, ?_⟩
          rw [← hco]; congr 1; omega
      · rintro (hs | ⟨k, o, hk, hco⟩)
        · exact Or.inl hs
        · cases k with
          | zero =>
            simp at hk
            subst hk
            simp [hc] at hco
          | succ k =>
            refine Or.inr ⟨k, o, by simpa using hk, ?_⟩
            rw [← hco]; congr 1; omega
    | some c =>
      simp only
      have hrkc : rk c.2 = off + i := hrk i obj c.1 c.2 (by simpa using hc)
      have hg1 := good_pick hg c (fun d h hs => by have := hb d h hs; omega)
      have hb2 : ∀ d h, (Seen d h ∨ (d, h) = c) → rk h < off + (i + 1) := by
        rintro d h (hs | hs)
        · have := hb d h hs; omega
        · cases hs
          have : rk h = off + i := hrkc
          omega
      refine good_congr (ih (i + 1) _ _ hg1 hb2) ?_
      intro d h
      constructor
      · rintro ((hs | hs) | ⟨k, o, hk, hco⟩)
        · exact Or.inl hs
        · refine Or.inr ⟨0, obj, by simp, ?_⟩
          simpa [hs] using hc
        · refine Or.inr ⟨k + 1, o, by simpa using hk, ?_⟩
          rw [← hco]; congr 1; omega
      · rintro (hs | ⟨k, o, hk, hco⟩)
        · exact Or.inl (Or.inl hs)
        · cases k with
          | zero =>
            simp at hk
            subst hk
            simp [hc] at hco
            exact Or.inl (Or.inr hco.symm)
          | succ k =>
            refine Or.inr ⟨k, o, by simpa using hk, ?_⟩
            rw [← hco]; congr 1; omega

omit [LinearOrderedField α] in
theorem sphereSkipped_eq_false (ex : ObjectId) (exT : Bool) (i : Nat) (obj : Sphere α) :
    sphereSkipped ex exT i obj = false ↔
      Admissible ex exT ⟨ObjectType.SPHERE, (i : Int)⟩ obj.material := by
  obtain ⟨ty, ix⟩ := ex
  unfold sphereSkipped Admissible
  cases exT <;> cases obj.material.refract <;> cases ty <;>
    by_cases hix : (i : Int) = ix <;> simp [hix]

omit [LinearOrderedField α] in
theorem triangleSkipped_eq_false (ex : ObjectId) (exT : Bool) (i : Nat) (obj : Triangle α) :
    triangleSkipped ex exT i obj = false ↔
      Admissible ex exT ⟨ObjectType.TRIANGLE, (i : Int)⟩ obj.material := by
  obtain ⟨ty, ix⟩ := ex
  unfold triangleSkipped Admissible
  cases exT <;> cases obj.material.refract <;> cases ty <;>
    by_cases hix : (i : Int) = ix <;> simp [hix]

theorem sphereCand_eq_some (G : Glm α) (rayFrom dir : Vec3 α) (i : Nat) (obj : Sphere α)
    (d : α) (h : Hit α) :
    sphereCand G rayFrom dir i obj = some (d, h) ↔
      ∃ pos norm, G.intersectRaySphere rayFrom dir obj.center obj.radius = some (pos, norm) ∧
        d = distance G rayFrom pos ∧
        h = { id := ⟨ObjectType.SPHERE, (i : Int)⟩, pos := pos, norm := norm,
              mat := obj.material,
              isInside := decide (distance G rayFrom obj.center < obj.radius) } := by
  unfold sphereCand
  cases hI : G.intersectRaySphere rayFrom dir obj.center obj.radius with
  | none => simp
  | some pn =>
    obtain ⟨pos, norm⟩ := pn
    simp only [Option.some.injEq, Prod.mk.injEq]
    constructor
    · rintro ⟨rfl, rfl⟩
      exact ⟨pos, norm, ⟨rfl, rfl⟩, rfl, rfl⟩
    · rintro ⟨p, n, ⟨rfl, rfl⟩, rfl, rfl⟩
      exact ⟨rfl, rfl⟩

theorem triangleCand_eq_some (G : Glm α) (rayFrom dir : Vec3 α) (i : Nat) (obj : Triangle α)
    (d : α) (h : Hit α) :
    triangleCand G rayFrom dir i obj = some (d, h) ↔
      ∃ baryPos,
        G.intersectRayTriangle rayFrom dir obj.vertex0 obj.vertex1 obj.vertex2 = some baryPos ∧
        d = baryPos.z ∧
        h = { id := ⟨ObjectType.TRIANGLE, (i : Int)⟩, pos := rayFrom + dir.scale baryPos.z,
              norm := obj.norm, mat := obj.material, isInside := false } := by
  unfold triangleCand
  cases hI : G.intersectRayTriangle rayFrom dir obj.vertex0 obj.vertex1 obj.vertex2 with
  | none => simp
  | some b =>
    simp only [Option.some.injEq, Prod.mk.injEq]
    constructor
    · rintro ⟨rfl, rfl⟩
      exact ⟨b, rfl, rfl, rfl⟩
    · rintro ⟨p, rfl, rfl, rfl⟩
      exact ⟨rfl, rfl⟩

theorem sphereOpt_eq_some (G : Glm α) (rayFrom dir : Vec3 α) (ex : ObjectId) (exT : Bool)
    (i : Nat) (obj : Sphere α) (d : α) (h : Hit α) :
    sphereOpt G rayFrom dir ex exT i obj = some (d, h) ↔
      sphereCand G rayFrom dir i obj = some (d, h) ∧
      Admissible ex exT ⟨ObjectType.SPHERE, (i : Int)⟩ obj.material := by
  rw [← sphereSkipped_eq_false]
  unfold sphereOpt
  cases sphereSkipped ex exT i obj <;> simp

theorem triangleOpt_eq_some (G : Glm α) (rayFrom dir : Vec3 α) (ex : ObjectId) (exT : Bool)
    (i : Nat) (obj : Triangle α) (d : α) (h : Hit α) :
    triangleOpt G rayFrom dir ex exT i obj = some (d, h) ↔
      triangleCand G rayFrom dir i obj = some (d, h) ∧
      Admissible ex exT ⟨ObjectType.TRIANGLE, (i : Int)⟩ obj.material := by
  rw [← triangleSkipped_eq_false]
  unfold triangleOpt
  cases triangleSkipped ex exT i obj <;> simp

/-- The candidates of the sphere loop are the admissible sphere hits. -/
theorem sphere_seen_iff (S : Scene α) (G : Glm α) (rayFrom dir : Vec3 α) (ex : ObjectId)
    (exT : Bool) (d : α) (h : Hit α) :
    (∃ k obj, S.spheres[k]? = some obj ∧ sphereOpt G rayFrom dir ex exT (0 + k) obj = some (d, h))
      ↔ (∃ i, SphereHit S G rayFrom dir i d h) ∧ Admissible ex exT h.id h.mat := by
  constructor
  · rintro ⟨k, obj, hk, ho⟩
    rw [Nat.zero_add, sphereOpt_eq_some, sphereCand_eq_some] at ho
    obtain ⟨⟨pos, norm, hI, hd, hh⟩, hadm⟩ := ho
    refine ⟨⟨k, obj, pos, norm, hk, hI, hd, hh⟩, ?_⟩
    rw [hh]; exact hadm
  · rintro ⟨⟨k, obj, pos, norm, hk, hI, hd, hh⟩, hadm⟩
    refine ⟨k, obj, hk, ?_⟩
    rw [Nat.zero_add, sphereOpt_eq_some, sphereCand_eq_some]
    refine ⟨⟨pos, norm, hI, hd, hh⟩, ?_⟩
    rw [hh] at hadm; exact hadm

/-- The candidates of the triangle loop are the admissible triangle hits. -/
theorem triangle_seen_iff (S : Scene α) (G : Glm α) (rayFrom dir : Vec3 α) (ex : ObjectId)
    (exT : Bool) (d : α) (h : Hit α) :
    (∃ k obj, S.triangles[k]? = some obj ∧
        triangleOpt G rayFrom dir ex exT (0 + k) obj = some (d, h))
      ↔ (∃ i, TriangleHit S G rayFrom dir i d h) ∧ Admissible ex exT h.id h.mat := by
  constructor
  · rintro ⟨k, obj, hk, ho⟩
    rw [Nat.zero_add, triangleOpt_eq_some, triangleCand_eq_some] at ho
    obtain ⟨⟨b, hI, hd, hh⟩, hadm⟩ := ho
    refine ⟨⟨k, obj, b, hk, hI, hd, hh⟩, ?_⟩
    rw [hh]; exact hadm
  · rintro ⟨⟨k, obj, b, hk, hI, hd, hh⟩, hadm⟩
    refine ⟨k, obj, hk, ?_⟩
    rw [Nat.zero_add, triangleOpt_eq_some, triangleCand_eq_some]
    refine ⟨⟨b, hI, hd, hh⟩, ?_⟩
    rw [hh] at hadm; exact hadm

theorem findNearestObject_eq (S : Scene α) (G : Glm α) (rayFrom dir : Vec3 α) (ex : ObjectId)
    (exT : Bool) :
    findNearestObject S G rayFrom dir ex exT = (nearestState S G rayFrom dir ex exT).hit := rfl

/-- The loop invariant holds at the end of `findNearestObject` for the set of
all admissible intersected primitives. -/
theorem nearestState_good (S : Scene α) (G : Glm α) (rayFrom dir : Vec3 α) (ex : ObjectId)
    (exT : Bool) :
    Good (fun h => iterationRank S h.id) FLT_MAX (IsCandidate S G rayFrom dir ex exT)
      (nearestState S G rayFrom dir ex exT) := by
  unfold nearestState
  rw [sphereLoop_eq_scan, triangleLoop_eq_scan]
  have h0 : Good (fun h : Hit α => iterationRank S h.id) FLT_MAX (fun _ _ => False)
      ({ nearestDist := FLT_MAX, hit := none } : NearState α) :=
    Or.inl ⟨rfl, rfl, fun _ _ hf => hf.elim⟩
  have h1 := scanLoop_good (fun h : Hit α => iterationRank S h.id) FLT_MAX
    (sphereOpt G rayFrom dir ex exT) 0
    (by
      intro i obj d h ho
      rw [sphereOpt_eq_some, sphereCand_eq_some] at ho
      obtain ⟨⟨pos, norm, _, _, hh⟩, _⟩ := ho
      simp [hh, iterationRank])
    S.spheres 0 _ _ h0 (fun _ _ hf => hf.elim)
  have h2 := scanLoop_good (fun h : Hit α => iterationRank S h.id) FLT_MAX
    (triangleOpt G rayFrom dir ex exT) S.spheres.length
    (by
      intro i obj d h ho
      rw [triangleOpt_eq_some, triangleCand_eq_some] at ho
      obtain ⟨⟨b, _, _, hh⟩, _⟩ := ho
      simp [hh, iterationRank])
    S.triangles 0 _ _ h1
    (by
      rintro d h (hf | ⟨k, obj, hk, ho⟩)
      · exact hf.elim
      · rw [Nat.zero_add, sphereOpt_eq_some, sphereCand_eq_some] at ho
        obtain ⟨⟨pos, norm, _, _, hh⟩, _⟩ := ho
        have hlt : k < S.spheres.length := by
          rcases Nat.lt_or_ge k S.spheres.length with hlt | hge
          · exact hlt
          · rw [List.getElem?_eq_none hge] at hk; cases hk
        simp [hh, iterationRank, hlt])
  refine good_congr h2 ?_
  intro d h
  unfold IsCandidate
  rw [triangle_seen_iff, false_or, sphere_seen_iff]
  tauto

/-- What `findNearestObject` reports: nothing when no admissible intersected
primitive lies below `FLT_MAX`, otherwise a nearest one, first in iteration
order among the nearest. -/
theorem findNearestObject_spec (S : Scene α) (G : Glm α) (rayFrom dir : Vec3 α)
    (ex : ObjectId) (exT : Bool) :
    (findNearestObject S G rayFrom dir ex exT = none ∧
      ∀ d h, IsCandidate S G rayFrom dir ex exT d h → FLT_MAX ≤ d) ∨
    (∃ d h, findNearestObject S G rayFrom dir ex exT = some h ∧
      IsCandidate S G rayFrom dir ex exT d h ∧ d < FLT_MAX ∧
      ∀ d2 h2, IsCandidate S G rayFrom dir ex exT d2 h2 →
        d ≤ d2 ∧ (d2 = d → iterationRank S h.id ≤ iterationRank S h2.id)) := by
  rw [findNearestObject_eq]
  rcases nearestState_good S G rayFrom dir ex exT with ⟨hn, _, hall⟩ | ⟨h, hs, hseen, hlt, hall⟩
  · exact Or.inl ⟨hn, hall⟩
  · exact Or.inr ⟨_, h, hs, hseen, hlt, hall⟩

/-- When no admissible primitive passes its intersection test, `findNearestObject`
returns `false`. -/
theorem findNearestObject_none_of_no_candidate (S : Scene α) (G : Glm α)
    (rayFrom dir : Vec3 α) (ex : ObjectId) (exT : Bool)
    (hno : ∀ d h, ¬ IsCandidate S G rayFrom dir ex exT d h) :
    findNearestObject S G rayFrom dir ex exT = none := by
  rcases findNearestObject_spec S G rayFrom dir ex exT with ⟨hn, _⟩ | ⟨d, h, _, hc, _⟩
  · exact hn
  · exact absurd hc (hno d h)

/-- `findNearestObject` returns `true` exactly when an admissible primitive
passes its intersection test at a distance below `FLT_MAX`. -/
theorem findNearestObject_isSome_iff (S : Scene α) (G : Glm α) (rayFrom dir : Vec3 α)
    (ex : ObjectId) (exT : Bool) :
    (findNearestObject S G rayFrom dir ex exT).isSome = true ↔
      ∃ d h, IsCandidate S G rayFrom dir ex exT d h ∧ d < FLT_MAX := by
  rcases findNearestObject_spec S G rayFrom dir ex exT with
    ⟨hn, hall⟩ | ⟨d, h, hs, hc, hlt, _⟩
  · rw [hn]
    constructor
    · intro hf; cases hf
    · rintro ⟨d, h, hc, hlt⟩
      exact absurd hlt (not_lt.mpr (hall d h hc))
  · rw [hs]
    exact ⟨fun _ => ⟨d, h, hc, hlt⟩, fun _ => rfl⟩

/-- The reported hit is an admissible intersected primitive of least distance,
first in iteration order among those of least distance. -/
theorem findNearestObject_some_spec (S : Scene α) (G : Glm α) (rayFrom dir : Vec3 α)
    (ex : ObjectId) (exT : Bool) (h : Hit α)
    (hfound : findNearestObject S G rayFrom dir ex exT = some h) :
    ∃ d, IsCandidate S G rayFrom dir ex exT d h ∧ d < FLT_MAX ∧
      ∀ d2 h2, IsCandidate S G rayFrom dir ex exT d2 h2 →
        d ≤ d2 ∧ (d2 = d → iterationRank S h.id ≤ iterationRank S h2.id) := by
  rcases findNearestObject_spec S G rayFrom dir ex exT with
    ⟨hn, _⟩ | ⟨d, h1, hs, hc, hlt, hall⟩
  · rw [hn] at hfound; cases hfound
  · rw [hs] at hfound
    cases hfound
    exact ⟨d, hc, hlt, hall⟩

/-- C1. For every scene, ray, exclusion id, depth and refractive index: when the
ray has no nearest hit (`findNearestObject` with `excludeTransparentMat = false`
returns `false`, which is the case in particular when no non-excluded primitive
passes its intersection test), `_renderPixel` returns exactly `bgColor`. -/
theorem renderPixel_miss_returns_bgColor (S : Scene α) (G : Glm α)
    (rayFrom normalizedRayDir : Vec3 α) (prevObjectID : ObjectId) (fuel : Nat) (depth : Int)
    (rIndex : α)
    (hmiss : findNearestObject S G rayFrom normalizedRayDir prevObjectID false = none ∨
      ∀ d h, ¬ IsCandidate S G rayFrom normalizedRayDir prevObjectID false d h) :
    _renderPixel S G (fuel + 1) rayFrom normalizedRayDir prevObjectID depth rIndex
      = some S.bgColor := by
  have hnone : findNearestObject S G rayFrom normalizedRayDir prevObjectID false = none := by
    rcases hmiss with h | h
    · exact h
    · exact findNearestObject_none_of_no_candidate S G _ _ _ _ h
  simp only [_renderPixel, renderPixelBody, hnone]

/-- C2 (amended). `findNearestObject` returns `true` exactly when some admissible
primitive (not the excluded id, and not refractive when `excludeTransparentMat`
is set) passes its intersection test at a hit distance below `FLT_MAX`, the
initial value of `nearestDist`.  When it returns `true`, the reported values
(id, position, normal, material) are those of an admissible intersected
primitive whose hit distance is at most that of every admissible intersected
primitive, and among those of equal least distance it is the first in
iteration order (spheres by index, then triangles by index). -/
theorem findNearestObject_nearest (S : Scene α) (G : Glm α) (rayFrom normalizedRayDir : Vec3 α)
    (excludeObjectID : ObjectId) (excludeTransparentMat : Bool) :
    ((findNearestObject S G rayFrom normalizedRayDir excludeObjectID
          excludeTransparentMat).isSome = true ↔
      ∃ d h, IsCandidate S G rayFrom normalizedRayDir excludeObjectID excludeTransparentMat d h
        ∧ d < FLT_MAX) ∧
    (∀ h, findNearestObject S G rayFrom normalizedRayDir excludeObjectID excludeTransparentMat
          = some h →
      ∃ d, IsCandidate S G rayFrom normalizedRayDir excludeObjectID excludeTransparentMat d h ∧
        d < FLT_MAX ∧
        ∀ d2 h2,
          IsCandidate S G rayFrom normalizedRayDir excludeObjectID excludeTransparentMat d2 h2 →
          d ≤ d2 ∧ (d2 = d → iterationRank S h.id ≤ iterationRank S h2.id)) :=
  ⟨findNearestObject_isSome_iff S G _ _ _ _, findNearestObject_some_spec S G _ _ _ _⟩

/-- C5 (amended). `isShaded` returns `true` if and only if some primitive that
is not the excluded id and whose material is not refractive passes its
intersection test for the ray at a hit distance below `FLT_MAX`; in particular
it is `false` when every intersected, non-excluded primitive is refractive. -/
theorem isShaded_iff (S : Scene α) (G : Glm α) (rayFrom normalizedRayDir : Vec3 α)
    (excludeObjectID : ObjectId) :
    (isShaded S G rayFrom normalizedRayDir excludeObjectID = true ↔
      ∃ d h, ((∃ i, SphereHit S G rayFrom normalizedRayDir i d h) ∨
              (∃ i, TriangleHit S G rayFrom normalizedRayDir i d h)) ∧
        h.id ≠ excludeObjectID ∧ h.mat.refract = false ∧ d < FLT_MAX) ∧
    ((∀ d h, ((∃ i, SphereHit S G rayFrom normalizedRayDir i d h) ∨
              (∃ i, TriangleHit S G rayFrom normalizedRayDir i d h)) →
        h.id ≠ excludeObjectID → h.mat.refract = true) →
      isShaded S G rayFrom normalizedRayDir excludeObjectID = false) := by
  have key : isShaded S G rayFrom normalizedRayDir excludeObjectID = true ↔
      ∃ d h, ((∃ i, SphereHit S G rayFrom normalizedRayDir i d h) ∨
              (∃ i, TriangleHit S G rayFrom normalizedRayDir i d h)) ∧
        h.id ≠ excludeObjectID ∧ h.mat.refract = false ∧ d < FLT_MAX := by
    unfold isShaded
    rw [findNearestObject_isSome_iff S G rayFrom normalizedRayDir excludeObjectID true]
    constructor
    · rintro ⟨d, h, ⟨hhit, hne, hr⟩, hlt⟩
      exact ⟨d, h, hhit, hne, hr rfl, hlt⟩
    · rintro ⟨d, h, hhit, hne, hr, hlt⟩
      exact ⟨d, h, ⟨hhit, hne, fun _ => hr⟩, hlt⟩
  refine ⟨key, ?_⟩
  intro hall
  cases hsh : isShaded S G rayFrom normalizedRayDir excludeObjectID with
  | false => rfl
  | true =>
    obtain ⟨d, h, hhit, hne, hr, _⟩ := key.mp hsh
    have := hall d h hhit hne
    rw [hr] at this
    cases this

/-- C6. Whenever `findNearestObject` returns `true`, the reported `ObjectId`
differs from the exclusion id, and when `excludeTransparentMat` is set the
reported material is not refractive; hence the reflected ray that
`_renderPixel` spawns at a hit `h` (origin `h.pos`, exclusion id `h.id`) never
reports `h.id` as its nearest hit. -/
theorem findNearestObject_excludes (S : Scene α) (G : Glm α)
    (rayFrom normalizedRayDir : Vec3 α) (excludeObjectID : ObjectId)
    (excludeTransparentMat : Bool) (h : Hit α)
    (hfound : findNearestObject S G rayFrom normalizedRayDir excludeObjectID
      excludeTransparentMat = some h) :
    h.id ≠ excludeObjectID ∧
    (excludeTransparentMat = true → h.mat.refract = false) ∧
    (∀ (dir2 : Vec3 α) (h2 : Hit α),
      findNearestObject S G h.pos dir2 h.id false = some h2 → h2.id ≠ h.id) := by
  have base : ∀ (rf dr : Vec3 α) (ex : ObjectId) (exT : Bool) (g : Hit α),
      findNearestObject S G rf dr ex exT = some g →
      g.id ≠ ex ∧ (exT = true → g.mat.refract = false) := by
    intro rf dr ex exT g hg
    obtain ⟨d, hc, _⟩ := findNearestObject_some_spec S G rf dr ex exT g hg
    exact hc.2
  refine ⟨(base _ _ _ _ _ hfound).1, (base _ _ _ _ _ hfound).2, ?_⟩
  intro dir2 h2 h2found
  exact (base _ _ _ _ _ h2found).1

theorem calls_depth (S : Scene α) (G : Glm α) (a b : PixelCall α) (h : Calls S G a b) :
    a.depth < DEPTH_LIMIT ∧ b.depth = a.depth + 1 := by
  unfold Calls recursiveCalls at h
  split at h
  · simp at h
  · rename_i hit _
    by_cases hd : a.depth < DEPTH_LIMIT
    · rw [if_pos hd] at h
      refine ⟨hd, ?_⟩
      rcases List.mem_cons.mp h with h | h
      · rw [h]
      · split at h
        · split at h
          · rw [List.mem_singleton.mp h]
          · simp at h
        · simp at h
    · rw [if_neg hd] at h
      simp at h

theorem reaches_depth (S : Scene α) (G : Glm α) (a b : PixelCall α) (h : Reaches S G a b) :
    a.depth ≤ b.depth ∧ (a.depth ≤ DEPTH_LIMIT → b.depth ≤ DEPTH_LIMIT) := by
  induction h with
  | refl => exact ⟨le_refl _, fun h => h⟩
  | tail _ hbc ih =>
    have := calls_depth S G _ _ hbc
    constructor
    · omega
    · intro _; omega

/-- The body of `_renderPixel` consults `self` only at the calls listed by
`recursiveCalls`. -/
theorem renderPixelBody_congr (S : Scene α) (G : Glm α)
    (self self2 : Vec3 α → Vec3 α → ObjectId → Int → α → Option (Color α))
    (a : PixelCall α)
    (hagree : ∀ b, Calls S G a b →
      self b.rayFrom b.normalizedRayDir b.prevObjectID b.depth b.rIndex
        = self2 b.rayFrom b.normalizedRayDir b.prevObjectID b.depth b.rIndex) :
    renderPixelBody S G self a.rayFrom a.normalizedRayDir a.prevObjectID a.depth a.rIndex
      = renderPixelBody S G self2 a.rayFrom a.normalizedRayDir a.prevObjectID a.depth
          a.rIndex := by
  unfold Calls recursiveCalls at hagree
  unfold renderPixelBody
  cases hf : findNearestObject S G a.rayFrom a.normalizedRayDir a.prevObjectID false with
  | none => rfl
  | some h =>
    rw [hf] at hagree
    simp only at hagree ⊢
    by_cases hd : a.depth < DEPTH_LIMIT
    · rw [if_pos hd] at hagree
      rw [if_pos hd, if_pos hd]
      have h1 := hagree _ (List.mem_cons_self _ _)
      simp only at h1
      rw [h1]
      cases self2 h.pos (normalize G (reflect a.normalizedRayDir h.norm)) h.id (a.depth + 1)
          a.rIndex with
      | none => rfl
      | some r1 =>
        simp only
        cases hr : h.mat.refract with
        | false => simp
        | true =>
          rw [hr] at hagree
          simp only [if_true]
          cases hrd : refractionDir G (a.rIndex / h.mat.refraction) a.normalizedRayDir
              (refractionNormal h) with
          | none => rfl
          | some rdir =>
            rw [hrd] at hagree
            have h2 := hagree _ (List.mem_cons_of_mem _ (List.mem_singleton.mpr rfl))
            simp only at h2
            simp only [h2]
    · rw [if_neg hd, if_neg hd]

/-- Enough fuel: `_renderPixel` returns a color once the fuel exceeds the
number of levels left below `DEPTH_LIMIT`. -/
theorem renderPixel_isSome (S : Scene α) (G : Glm α) :
    ∀ (fuel : Nat) (rayFrom dir : Vec3 α) (prev : ObjectId) (depth : Int) (rIndex : α),
      (DEPTH_LIMIT - depth).toNat + 1 ≤ fuel →
      (_renderPixel S G fuel rayFrom dir prev depth rIndex).isSome = true := by
  intro fuel
  induction fuel with
  | zero => intro _ _ _ _ _ h; omega
  | succ n ih =>
    intro rayFrom dir prev depth rIndex hfuel
    simp only [_renderPixel, renderPixelBody]
    cases findNearestObject S G rayFrom dir prev false with
    | none => rfl
    | some h =>
      simp only
      by_cases hd : depth < DEPTH_LIMIT
      · rw [if_pos hd]
        have hn : (DEPTH_LIMIT - (depth + 1)).toNat + 1 ≤ n := by
          unfold DEPTH_LIMIT at hd hfuel ⊢; omega
        have i1 := ih h.pos (normalize G (reflect dir h.norm)) h.id (depth + 1) rIndex hn
        obtain ⟨r1, hr1⟩ := Option.isSome_iff_exists.mp i1
        rw [hr1]
        simp only
        cases h.mat.refract with
        | false => simp
        | true =>
          simp only [if_true]
          cases refractionDir G (rIndex / h.mat.refraction) dir (refractionNormal h) with
          | none => rfl
          | some rdir =>
            simp only
            have i2 := ih (h.pos + rdir.scale (1 / 100000)) rdir ObjectId.none (depth + 1)
              h.mat.refraction hn
            obtain ⟨r2, hr2⟩ := Option.isSome_iff_exists.mp i2
            rw [hr2]
            rfl
      · rw [if_neg hd]
        rfl

/-- C7. The recursion of `_renderPixel` terminates: with fuel exceeding the
number of levels left below `DEPTH_LIMIT` it returns a color for every scene,
ray and depth, and `renderPixel` does so with fuel 5.  Every recursive call is
made with `depth + 1` and only when `depth < DEPTH_LIMIT`, so that no call
reached from depth 0 has a depth outside `0..4`; the body of `_renderPixel`
consults its recursive results only at the calls listed by `recursiveCalls`. -/
theorem renderPixel_terminates (S : Scene α) (G : Glm α) :
    (∀ (rayFrom dir : Vec3 α) (prev : ObjectId) (depth : Int) (rIndex : α) (extra : Nat),
      (_renderPixel S G ((DEPTH_LIMIT - depth).toNat + 1 + extra) rayFrom dir prev depth
        rIndex).isSome = true) ∧
    (∀ (p : Vec3 α) (extra : Nat), (renderPixel S G (5 + extra) p).isSome = true) ∧
    (∀ a b, Calls S G a b → a.depth < DEPTH_LIMIT ∧ b.depth = a.depth + 1) ∧
    (∀ a b, a.depth = 0 → Reaches S G a b → 0 ≤ b.depth ∧ b.depth ≤ 4) ∧
    (∀ (self self2 : Vec3 α → Vec3 α → ObjectId → Int → α → Option (Color α))
       (a : PixelCall α),
      (∀ b, Calls S G a b →
        self b.rayFrom b.normalizedRayDir b.prevObjectID b.depth b.rIndex
          = self2 b.rayFrom b.normalizedRayDir b.prevObjectID b.depth b.rIndex) →
      renderPixelBody S G self a.rayFrom a.normalizedRayDir a.prevObjectID a.depth a.rIndex
        = renderPixelBody S G self2 a.rayFrom a.normalizedRayDir a.prevObjectID a.depth
            a.rIndex) := by
  refine ⟨?_, ?_, calls_depth S G, ?_, renderPixelBody_congr S G⟩
  · intro rayFrom dir prev depth rIndex extra
    exact renderPixel_isSome S G _ rayFrom dir prev depth rIndex (by omega)
  · intro p extra
    unfold renderPixel
    exact renderPixel_isSome S G _ _ _ _ _ _ (by unfold DEPTH_LIMIT; omega)
  · intro a b ha hr
    have := reaches_depth S G a b hr
    unfold DEPTH_LIMIT at this
    omega

theorem pick_sameLocal {st st2 : NearState α} (hst : st.sameLocal st2) (d : α)
    {h h2 : Hit α} (hh : h.sameLocal h2) : (pick st (d, h)).sameLocal (pick st2 (d, h2)) := by
  unfold pick
  simp only
  rw [← hst.1]
  by_cases hc : d < st.nearestDist
  · rw [if_pos hc, if_pos hc]
    exact ⟨rfl, hh⟩
  · rw [if_neg hc, if_neg hc]
    exact hst

theorem sphereStep_sameLocal (G : Glm α) (rayFrom dir : Vec3 α) (ex : ObjectId) (exT : Bool)
    (i : Nat) {a b : Sphere α} (hab : a.sameLocal b) {st st2 : NearState α}
    (hst : st.sameLocal st2) :
    (sphereStep G rayFrom dir ex exT i a st).sameLocal
      (sphereStep G rayFrom dir ex exT i b st2) := by
  obtain ⟨hc, hr, hm⟩ := hab
  unfold sphereStep sphereSkipped sphereCand
  rw [← hc, ← hr, ← hm.2.2.2.2]
  split
  · exact hst
  · cases G.intersectRaySphere rayFrom dir a.center a.radius with
    | none => exact hst
    | some pn => exact pick_sameLocal hst _ ⟨rfl, rfl, rfl, rfl, hm⟩

theorem triangleStep_sameLocal (G : Glm α) (rayFrom dir : Vec3 α) (ex : ObjectId)
    (exT : Bool) (i : Nat) {a b : Triangle α} (hab : a.sameLocal b) {st st2 : NearState α}
    (hst : st.sameLocal st2) :
    (triangleStep G rayFrom dir ex exT i a st).sameLocal
      (triangleStep G rayFrom dir ex exT i b st2) := by
  obtain ⟨h0, h1, h2, hn, hm⟩ := hab
  unfold triangleStep triangleSkipped triangleCand
  rw [← h0, ← h1, ← h2, ← hn, ← hm.2.2.2.2]
  split
  · exact hst
  · cases G.intersectRayTriangle rayFrom dir a.vertex0 a.vertex1 a.vertex2 with
    | none => exact hst
    | some bp => exact pick_sameLocal hst _ ⟨rfl, rfl, rfl, rfl, hm⟩

theorem sphereLoop_sameLocal (G : Glm α) (rayFrom dir : Vec3 α) (ex : ObjectId) (exT : Bool)
    {l l2 : List (Sphere α)} (hl : List.Forall₂ Sphere.sameLocal l l2) :
    ∀ (i : Nat) (st st2 : NearState α), st.sameLocal st2 →
      (sphereLoop G rayFrom dir ex exT i l st).sameLocal
        (sphereLoop G rayFrom dir ex exT i l2 st2) := by
  induction hl with
  | nil => intro i st st2 hst; exact hst
  | cons hab _ ih =>
    intro i st st2 hst
    exact ih (i + 1) _ _ (sphereStep_sameLocal G rayFrom dir ex exT i hab hst)

theorem triangleLoop_sameLocal (G : Glm α) (rayFrom dir : Vec3 α) (ex : ObjectId)
    (exT : Bool) {l l2 : List (Triangle α)} (hl : List.Forall₂ Triangle.sameLocal l l2) :
    ∀ (i : Nat) (st st2 : NearState α), st.sameLocal st2 →
      (triangleLoop G rayFrom dir ex exT i l st).sameLocal
        (triangleLoop G rayFrom dir ex exT i l2 st2) := by
  induction hl with
  | nil => intro i st st2 hst; exact hst
  | cons hab _ ih =>
    intro i st st2 hst
    exact ih (i + 1) _ _ (triangleStep_sameLocal G rayFrom dir ex exT i hab hst)

theorem findNearestObject_sameLocal {S S2 : Scene α} (hS : S.sameLocal S2) (G : Glm α)
    (rayFrom dir : Vec3 α) (ex : ObjectId) (exT : Bool) :
    optSameLocal (findNearestObject S G rayFrom dir ex exT)
      (findNearestObject S2 G rayFrom dir ex exT) :=
  (triangleLoop_sameLocal G rayFrom dir ex exT hS.2.1 0 _ _
    (sphereLoop_sameLocal G rayFrom dir ex exT hS.1 0 _ _
      (show NearState.sameLocal (⟨FLT_MAX, none⟩ : NearState α) ⟨FLT_MAX, none⟩ from
        ⟨rfl, trivial⟩))).2

theorem isShaded_sameLocal {S S2 : Scene α} (hS : S.sameLocal S2) (G : Glm α)
    (rayFrom dir : Vec3 α) (ex : ObjectId) :
    isShaded S G rayFrom dir ex = isShaded S2 G rayFrom dir ex := by
  have := findNearestObject_sameLocal hS G rayFrom dir ex true
  unfold isShaded
  cases h1 : findNearestObject S G rayFrom dir ex true <;>
    cases h2 : findNearestObject S2 G rayFrom dir ex true <;>
    simp_all [optSameLocal]

theorem localColor_sameLocal {S S2 : Scene α} (hS : S.sameLocal S2) (G : Glm α)
    (dir : Vec3 α) {h h2 : Hit α} (hh : h.sameLocal h2) :
    localColor S G dir h = localColor S2 G dir h2 := by
  obtain ⟨hid, hpos, hnorm, _, ha, hdf, hsp, hsh, hrf⟩ := hh
  have hstep : lightStep S G h (normalize G (reflect dir h.norm))
      = lightStep S2 G h2 (normalize G (reflect dir h2.norm)) := by
    funext c light
    unfold lightStep diffuseTerm specularTerm
    simp only [isShaded_sameLocal hS, hid, hpos, hnorm, hdf, hsp, hsh]
  unfold localColor
  simp only [hstep, ← hS.2.2.1, ← hS.2.2.2, ha, hrf]

/-- At or beyond `DEPTH_LIMIT`, a call with a nearest hit returns the local color. -/
theorem renderPixel_depth_limit_eq (S : Scene α) (G : Glm α) (rayFrom dir : Vec3 α)
    (prev : ObjectId) (depth : Int) (rIndex : α) (fuel : Nat) (h : Hit α)
    (hd : DEPTH_LIMIT ≤ depth) (hfound : findNearestObject S G rayFrom dir prev false = some h) :
    _renderPixel S G (fuel + 1) rayFrom dir prev depth rIndex = some (localColor S G dir h) := by
  simp only [_renderPixel, renderPixelBody, hfound, if_neg (not_lt.mpr hd)]

/-- C8. When `_renderPixel` is called with `depth ≥ DEPTH_LIMIT` and the ray
has a nearest hit `h`, no recursive call is made and the returned color is
`localColor`, that is `bgColor ⊙ ambientFactor` plus the light terms of that
hit; it is the same in every scene that differs only in the values of
`reflectionFactor`, `refraction` and `refractionFactor` of the materials. -/
theorem renderPixel_at_depth_limit_local (S : Scene α) (G : Glm α)
    (rayFrom normalizedRayDir : Vec3 α) (prevObjectID : ObjectId) (depth : Int) (rIndex : α)
    (fuel : Nat) (h : Hit α) (hdepth : DEPTH_LIMIT ≤ depth)
    (hfound : findNearestObject S G rayFrom normalizedRayDir prevObjectID false = some h) :
    _renderPixel S G (fuel + 1) rayFrom normalizedRayDir prevObjectID depth rIndex
        = some (localColor S G normalizedRayDir h) ∧
    recursiveCalls S G ⟨rayFrom, normalizedRayDir, prevObjectID, depth, rIndex⟩ = [] ∧
    (∀ S2 : Scene α, S.sameLocal S2 →
      _renderPixel S2 G (fuel + 1) rayFrom normalizedRayDir prevObjectID depth rIndex
        = _renderPixel S G (fuel + 1) rayFrom normalizedRayDir prevObjectID depth rIndex) := by
  refine ⟨renderPixel_depth_limit_eq S G _ _ _ _ _ _ h hdepth hfound, ?_, ?_⟩
  · simp only [recursiveCalls, hfound, if_neg (not_lt.mpr hdepth)]
  · intro S2 hS
    have hrel := findNearestObject_sameLocal hS G rayFrom normalizedRayDir prevObjectID false
    rw [hfound] at hrel
    cases hf2 : findNearestObject S2 G rayFrom normalizedRayDir prevObjectID false with
    | none => rw [hf2] at hrel; exact hrel.elim
    | some h2 =>
      rw [hf2] at hrel
      rw [renderPixel_depth_limit_eq S G _ _ _ _ _ _ h hdepth hfound,
        renderPixel_depth_limit_eq S2 G _ _ _ _ _ _ h2 hdepth hf2,
        localColor_sameLocal hS G normalizedRayDir hrel]

theorem vec3_add_def (a b : Vec3 α) : a + b = ⟨a.x + b.x, a.y + b.y, a.z + b.z⟩ := rfl

theorem vec3_sub_def (a b : Vec3 α) : a - b = ⟨a.x - b.x, a.y - b.y, a.z - b.z⟩ := rfl

theorem vec3_mul_def (a b : Vec3 α) : a * b = ⟨a.x * b.x, a.y * b.y, a.z * b.z⟩ := rfl

theorem vec3_neg_def (a : Vec3 α) : -a = ⟨-a.x, -a.y, -a.z⟩ := rfl

theorem vec3_add_mul_zero (c a : Vec3 α) : c + a * ⟨0, 0, 0⟩ = c := by
  simp [vec3_add_def, vec3_mul_def]

/-- C9. In a scene with exactly one light, for a non-refractive nearest hit
whose `specularFactor` is zero and `depth = DEPTH_LIMIT`, `_renderPixel`
returns `bgColor ⊙ ambientFactor` plus `s · intensity · lightColor ⊙
diffuseFactor` when `s > 0` and `isShaded(pos, lightDir, hitId)` is false, and
plus zero otherwise, where `s = dot(normal, lightDir)` and `lightDir` is
`normalize(lightPos − hitPoint)` for a point light and the negated stored
direction for a directional light; when the light is not occluded, `s > 0` and
intensity, light color and diffuse factor are positive, every component of the
diffuse contribution is strictly positive. -/
theorem renderPixel_single_light_diffuse (S : Scene α) (G : Glm α)
    (rayFrom normalizedRayDir : Vec3 α) (prevObjectID : ObjectId) (rIndex : α) (fuel : Nat)
    (h : Hit α) (light : Light α)
    (hlights : S.lights = [light])
    (hfound : findNearestObject S G rayFrom normalizedRayDir prevObjectID false = some h)
    (hrefract : h.mat.refract = false)
    (hspecular : h.mat.specularFactor = ⟨0, 0, 0⟩) :
    _renderPixel S G (fuel + 1) rayFrom normalizedRayDir prevObjectID DEPTH_LIMIT rIndex
        = some (S.bgColor * h.mat.ambientFactor +
            (if dot h.norm (lightDirection G light h.pos) > 0 ∧
                isShaded S G h.pos (lightDirection G light h.pos) h.id = false
             then Vec3.splat (dot h.norm (lightDirection G light h.pos) * light.intensity)
                    * light.color * h.mat.diffuseFactor
             else ⟨0, 0, 0⟩)) ∧
    (light.type = LightType.POINT →
        lightDirection G light h.pos = normalize G (light.position - h.pos)) ∧
    (light.type = LightType.DIRECTIONAL → lightDirection G light h.pos = -light.position) ∧
    (dot h.norm (lightDirection G light h.pos) > 0 →
      isShaded S G h.pos (lightDirection G light h.pos) h.id = false →
      0 < light.intensity →
      (0 < light.color.x ∧ 0 < light.color.y ∧ 0 < light.color.z) →
      (0 < h.mat.diffuseFactor.x ∧ 0 < h.mat.diffuseFactor.y ∧ 0 < h.mat.diffuseFactor.z) →
      0 < (Vec3.splat (dot h.norm (lightDirection G light h.pos) * light.intensity)
            * light.color * h.mat.diffuseFactor).x ∧
      0 < (Vec3.splat (dot h.norm (lightDirection G light h.pos) * light.intensity)
            * light.color * h.mat.diffuseFactor).y ∧
      0 < (Vec3.splat (dot h.norm (lightDirection G light h.pos) * light.intensity)
            * light.color * h.mat.diffuseFactor).z) := by
  refine ⟨?_, ?_, ?_, ?_⟩
  · rw [renderPixel_depth_limit_eq S G _ _ _ _ _ _ h (le_refl _) hfound]
    unfold localColor
    simp only [hrefract, if_true, hlights, List.foldl_cons, List.foldl_nil]
    unfold lightStep specularTerm diffuseTerm
    simp only [hspecular, vec3_add_mul_zero, ite_self]
    split
    · rfl
    · simp [vec3_add_def]
  · intro ht; simp only [lightDirection, ht]
  · intro ht; simp only [lightDirection, ht]
  · intro hs _ hi hc hdf
    have hsi : 0 < dot h.norm (lightDirection G light h.pos) * light.intensity :=
      mul_pos hs hi
    simp only [vec3_mul_def, Vec3.splat]
    exact ⟨mul_pos (mul_pos hsi hc.1) hdf.1, mul_pos (mul_pos hsi hc.2.1) hdf.2.1,
      mul_pos (mul_pos hsi hc.2.2) hdf.2.2⟩

/-- C10 (amended). For a hit with `isInside = false` (a triangle) and unit
stored normal `N`, a ray direction `d = −N` (normal incidence, anti-parallel
to the stored normal) and `n = rIndex / refraction = 1`, the refraction
direction `n·d + (n·cosI − sqrt(cosT2))·N` computed by `_renderPixel` is
exactly `d` (given `sqrt 1 = 1`). -/
theorem refractionDir_normal_incidence (G : Glm α) (h : Hit α) (normalizedRayDir : Vec3 α)
    (rIndex : α)
    (hsqrt : G.sqrt 1 = 1)
    (hunit : dot h.norm h.norm = 1)
    (hinside : h.isInside = false)
    (hn : rIndex / h.mat.refraction = 1)
    (hdir : normalizedRayDir = -h.norm) :
    refractionDir G (rIndex / h.mat.refraction) normalizedRayDir (refractionNormal h)
      = some normalizedRayDir := by
  have hN : refractionNormal h = h.norm := by simp [refractionNormal, hinside]
  have hcos : -dot h.norm normalizedRayDir = 1 := by
    rw [hdir, ← hunit]
    simp only [dot, vec3_neg_def]
    ring
  unfold refractionDir
  simp only [hn, hN, hcos, mul_one, sub_self, mul_zero, sub_zero, hsqrt, zero_lt_one, if_true]
  simp [vec3_add_def, Vec3.scale]

/-- A light that is occluded toward `lightDir` adds no diffuse term; its
specular term is guarded by the shadow test along `reflectionDir`. -/
theorem lightStep_of_shaded (S : Scene α) (G : Glm α) (h : Hit α) (reflectionDir : Vec3 α)
    (c : Color α) (light : Light α)
    (hsh : isShaded S G h.pos (lightDirection G light h.pos) h.id = true) :
    lightStep S G h reflectionDir c light
      = if dot (lightDirection G light h.pos) reflectionDir > 0 ∧
            isShaded S G h.pos reflectionDir h.id = false
        then c + specularTerm G light h.mat (dot (lightDirection G light h.pos) reflectionDir)
        else c := by
  unfold lightStep
  simp [hsh]

end Theorems

/-! ## Evaluation on the concrete scenes -/

theorem invalid_ne_sphere : (ObjectType.INVALID = ObjectType.SPHERE) = False := by decide

theorem invalid_ne_triangle : (ObjectType.INVALID = ObjectType.TRIANGLE) = False := by decide

theorem natSqrt_one : natSqrt 1 = 1 := by decide

theorem natSqrt_25 : natSqrt 25 = 5 := by decide

theorem sqrtQ_one : sqrtQ 1 = 1 := by
  simp [sqrtQ, natSqrt_one]

theorem sqrtQ_25 : sqrtQ 25 = 5 := by
  simp [sqrtQ, natSqrt_one, natSqrt_25]

theorem sceneQ_primary :
    findNearestObject sceneQ glmQ ⟨0, 1, 0⟩ ⟨0, -1, 0⟩ ObjectId.none false
      = some (floorHit matte) := by
  norm_num [findNearestObject, sceneQ, glmQ, sphereLoop, triangleLoop, sphereStep,
    triangleStep, sphereSkipped, triangleSkipped, sphereCand, triangleCand, pick,
    ObjectId.none, invalid_ne_sphere, invalid_ne_triangle, FLT_MAX, floorQ, screenQ, floorHit, intersectRaySphereQ,
    intersectRayTriangleQ, dot, cross, epsilonQ, vec3_add_def, vec3_sub_def, Vec3.scale]

theorem sceneQ_up_miss :
    findNearestObject sceneQ glmQ ⟨0, 1, 0⟩ ⟨0, 1, 0⟩ ObjectId.none false = none := by
  norm_num [findNearestObject, sceneQ, glmQ, sphereLoop, triangleLoop, sphereStep,
    triangleStep, sphereSkipped, triangleSkipped, sphereCand, triangleCand, pick,
    ObjectId.none, invalid_ne_sphere, invalid_ne_triangle, FLT_MAX, floorQ, screenQ, floorHit, intersectRaySphereQ,
    intersectRayTriangleQ, dot, cross, epsilonQ, vec3_add_def, vec3_sub_def, Vec3.scale]

theorem lampQ_direction : lightDirection glmQ lampQ ⟨0, 0, 0⟩ = ⟨3/5, 4/5, 0⟩ := by
  norm_num [lightDirection, lampQ, normalize, glmQ, dot, vec3_sub_def, Vec3.scale, sqrtQ_25]

theorem floor_reflection :
    normalize glmQ (reflect ⟨0, -1, 0⟩ ⟨0, 1, 0⟩) = ⟨0, 1, 0⟩ := by
  norm_num [normalize, reflect, glmQ, dot, vec3_sub_def, Vec3.scale, sqrtQ_one]

theorem sceneQ_lamp_shaded :
    isShaded sceneQ glmQ ⟨0, 0, 0⟩ ⟨3/5, 4/5, 0⟩ ⟨ObjectType.TRIANGLE, 0⟩ = true := by
  norm_num [isShaded, findNearestObject, sceneQ, glmQ, sphereLoop, triangleLoop, sphereStep,
    triangleStep, sphereSkipped, triangleSkipped, sphereCand, triangleCand, pick,
    ObjectId.none, invalid_ne_sphere, invalid_ne_triangle, FLT_MAX, floorQ, screenQ, matte, intersectRaySphereQ,
    intersectRayTriangleQ, dot, cross, epsilonQ, vec3_add_def, vec3_sub_def, Vec3.scale]

theorem sceneQ_up_unshaded :
    isShaded sceneQ glmQ ⟨0, 0, 0⟩ ⟨0, 1, 0⟩ ⟨ObjectType.TRIANGLE, 0⟩ = false := by
  norm_num [isShaded, findNearestObject, sceneQ, glmQ, sphereLoop, triangleLoop, sphereStep,
    triangleStep, sphereSkipped, triangleSkipped, sphereCand, triangleCand, pick,
    ObjectId.none, invalid_ne_sphere, invalid_ne_triangle, FLT_MAX, floorQ, screenQ, matte, intersectRaySphereQ,
    intersectRayTriangleQ, dot, cross, epsilonQ, vec3_add_def, vec3_sub_def, Vec3.scale]

theorem sceneQ_localColor :
    localColor sceneQ glmQ ⟨0, -1, 0⟩ (floorHit matte) = ⟨89/100, 89/100, 89/100⟩ := by
  unfold localColor
  rw [show (floorHit matte).norm = ⟨0, 1, 0⟩ from rfl, floor_reflection]
  simp only [show (floorHit matte).mat.refract = false from rfl, if_true,
    show sceneQ.lights = [lampQ] from rfl, List.foldl_cons, List.foldl_nil]
  simp only [lightStep, show (floorHit matte).pos = ⟨0, 0, 0⟩ from rfl, lampQ_direction,
    show (floorHit matte).id = ⟨ObjectType.TRIANGLE, 0⟩ from rfl, sceneQ_lamp_shaded,
    sceneQ_up_unshaded]
  norm_num [floorHit, dot, specularTerm, diffuseTerm, lampQ, matte, glmQ, sceneQ,
    vec3_add_def, vec3_mul_def, Vec3.splat, show Int.toNat 2 = 2 from rfl]

theorem sceneOpen_primary :
    findNearestObject sceneOpen glmQ ⟨0, 1, 0⟩ ⟨0, -1, 0⟩ ObjectId.none false
      = some (floorHit chalk) := by
  norm_num [findNearestObject, sceneOpen, glmQ, sphereLoop, triangleLoop, sphereStep,
    triangleStep, sphereSkipped, triangleSkipped, sphereCand, triangleCand, pick,
    ObjectId.none, invalid_ne_sphere, invalid_ne_triangle, FLT_MAX, floorQ, floorHit,
    intersectRayTriangleQ, dot, cross, epsilonQ, vec3_add_def, vec3_sub_def, Vec3.scale]

theorem farTriangle_test :
    intersectRayTriangleQ ⟨0, 0, 0⟩ ⟨0, 0, -1⟩ farTriangle.vertex0 farTriangle.vertex1
      farTriangle.vertex2 = some ⟨1/4, 1/4, FLT_MAX⟩ := by
  norm_num [farTriangle, intersectRayTriangleQ, dot, cross, epsilonQ, FLT_MAX, vec3_sub_def]

theorem sceneFar_not_found (exT : Bool) :
    findNearestObject sceneFar glmQ ⟨0, 0, 0⟩ ⟨0, 0, -1⟩ ObjectId.none exT = none := by
  have h := farTriangle_test
  cases exT <;>
  simp [findNearestObject, sceneFar, glmQ, sphereLoop, triangleLoop, triangleStep,
    triangleSkipped, triangleCand, pick, ObjectId.none, invalid_ne_triangle, h,
    show farTriangle.material.refract = false from rfl]

theorem sceneFar_triangleHit :
    TriangleHit sceneFar glmQ ⟨0, 0, 0⟩ ⟨0, 0, -1⟩ 0 FLT_MAX farHit := by
  refine ⟨farTriangle, ⟨1/4, 1/4, FLT_MAX⟩, rfl, farTriangle_test, rfl, ?_⟩
  norm_num [farHit, farTriangle, vec3_add_def, Vec3.scale]

/-- When `height = 4 * q` with `q > 0`, the band loop ends after four bands of
`q` rows each, which cover the rows `0, ..., height - 1` exactly. -/
theorem render_multiple_of_four (q : Int) (hq : 0 < q) (extra : Nat) :
    render (4 * q) (5 + extra)
      = some [(0, q), (q, q + q), (q + q, q + q + q), (q + q + q, q + q + q + q)] := by
  have hdiv : Int.tdiv (4 * q) ntasks = q := Int.mul_tdiv_cancel_left q (by decide)
  have h0 : (0 : Int) < 4 * q := by omega
  have h1 : q < 4 * q := by omega
  have h2 : q + q < 4 * q := by omega
  have h3 : q + q + q < 4 * q := by omega
  have h4 : ¬ (q + q + q + q < 4 * q) := by omega
  rw [show 5 + extra = extra + 5 from Nat.add_comm 5 extra]
  simp [render, renderBands, hdiv, h0, h1, h2, h3, h4]

/-- Consecutive row ranges of `_render` concatenate. -/
theorem render_rows_append (width a b c : Int) (hab : a ≤ b) (hbc : b ≤ c) :
    _render width a b ++ _render width b c = _render width a c := by
  unfold _render
  have hsplit : (c - a).toNat = (b - a).toNat + (c - b).toNat := by omega
  rw [hsplit, List.range_add, List.flatMap_append, List.flatMap_map]
  congr 1
  apply List.flatMap_congr
  intro k _
  congr 1
  have : ((b - a).toNat : Int) = b - a := Int.toNat_of_nonneg (by omega)
  push_cast
  omega

/-- The rows `0, ..., h - 1` written by `_render` are the indices
`0, ..., w * h - 1`, each once and in increasing order. -/
theorem render_rows_from_zero (w h : Nat) :
    _render (w : Int) 0 (h : Int) = (List.range (w * h)).map (fun (i : Nat) => (i : Int)) := by
  induction h with
  | zero => simp [_render]
  | succ n ih =>
    have h1 : _render (w : Int) 0 ((n + 1 : Nat) : Int)
        = _render (w : Int) 0 (n : Int) ++ _render (w : Int) (n : Int) ((n + 1 : Nat) : Int) :=
      (render_rows_append _ _ _ _ (by omega) (by push_cast; omega)).symm
    rw [h1, ih, Nat.mul_succ, List.range_add, List.map_append]
    congr 1
    have hone : (((n + 1 : Nat) : Int) - (n : Int)).toNat = 1 := by omega
    have hw : ((w : Int)).toNat = w := by omega
    unfold _render rowIndices
    rw [hone, hw]
    simp only [show List.range 1 = [0] from rfl, List.flatMap_cons, List.flatMap_nil,
      List.append_nil, List.map_map]
    apply List.map_congr_left
    intro x _
    simp only [Function.comp]
    push_cast
    ring

/-- When `height = 4 * q` with `q > 0`, the four tasks of `render` together
assign exactly the indices `0, ..., width * height - 1`, each once. -/
theorem render_multiple_of_four_exact (w q : Nat) (hq : 0 < q) (extra : Nat) :
    (renderWrites (w : Int) (4 * (q : Int)) (5 + extra)).map List.flatten
      = some ((List.range (w * (4 * q))).map (fun (i : Nat) => (i : Int))) := by
  have hq2 : (0 : Int) < (q : Int) := by omega
  unfold renderWrites
  rw [render_multiple_of_four (q : Int) hq2 extra]
  simp only [Option.map_some', List.map_cons, List.map_nil, List.flatten_cons,
    List.flatten_nil, List.append_nil, Option.some.injEq]
  rw [← render_rows_from_zero]
  rw [render_rows_append _ _ _ _ (by omega) (by omega),
    render_rows_append _ _ _ _ (by omega) (by omega),
    render_rows_append _ _ _ _ (by omega) (by omega)]
  congr 1
  push_cast
  ring

/-- For `0 < height < 4` the step `height / ntasks` is `0`: the band loop of
`render` never leaves `y = 0` and does not end, whatever the fuel. -/
theorem render_small_height_diverges (height : Int) (hpos : 0 < height) (hlt : height < 4)
    (fuel : Nat) : render height fuel = none := by
  have hdiv : Int.tdiv height ntasks = 0 := by
    unfold ntasks
    rw [Int.tdiv_eq_ediv (by omega) (by decide)]
    omega
  unfold render
  induction fuel with
  | zero => rfl
  | succ n ih => simp [renderBands, hdiv, hpos, ih]

/-- C3 (evaluation at the failing input). For `height = 9` the band loop of
`render` launches five tasks, the last one for the rows `[8, 10)`; with
`width = 1` that task assigns `pixels[9]`, outside the `width * height = 9`
entries of the buffer. -/
theorem render_height_nine_overruns :
    render 9 6 = some [(0, 2), (2, 4), (4, 6), (6, 8), (8, 10)] ∧
    (∀ fuel, 6 ≤ fuel → render 9 fuel = render 9 6) ∧
    renderWrites 1 9 6 = some [[0, 1], [2, 3], [4, 5], [6, 7], [8, 9]] ∧
    ¬ ((9 : Int) < 1 * 9) := by
  refine ⟨by decide, ?_, by decide, by decide⟩
  intro fuel hfuel
  obtain ⟨k, rfl⟩ : ∃ k, fuel = k + 6 := ⟨fuel - 6, by omega⟩
  simp [render, renderBands, ntasks, show Int.tdiv 9 4 = 2 from rfl]

/-- C4 (evaluation at the failing input). In `sceneQ` the ray from `(0, 1, 0)`
straight down hits the opaque floor at the origin; the only light is the
point light `lampQ`, and `isShaded(pos, lightDir, hitId)` is true (the screen
lies between the hit point and the lamp).  At `depth = DEPTH_LIMIT`
`_renderPixel` nevertheless returns `bgColor ⊙ ambientFactor = 1/4` plus the
specular term `16/25` of that light. -/
theorem shadowed_lamp_adds_specular :
    findNearestObject sceneQ glmQ ⟨0, 1, 0⟩ ⟨0, -1, 0⟩ ObjectId.none false
      = some (floorHit matte) ∧
    (floorHit matte).mat.refract = false ∧
    sceneQ.lights = [lampQ] ∧ lampQ.type = LightType.POINT ∧
    isShaded sceneQ glmQ (floorHit matte).pos (lightDirection glmQ lampQ (floorHit matte).pos)
      (floorHit matte).id = true ∧
    _renderPixel sceneQ glmQ 1 ⟨0, 1, 0⟩ ⟨0, -1, 0⟩ ObjectId.none DEPTH_LIMIT 1
      = some ⟨89/100, 89/100, 89/100⟩ ∧
    sceneQ.bgColor * (floorHit matte).mat.ambientFactor = ⟨1/4, 1/4, 1/4⟩ ∧
    specularTerm glmQ lampQ (floorHit matte).mat
        (dot (lightDirection glmQ lampQ (floorHit matte).pos)
          (normalize glmQ (reflect ⟨0, -1, 0⟩ (floorHit matte).norm)))
      = ⟨16/25, 16/25, 16/25⟩ := by
  refine ⟨sceneQ_primary, rfl, rfl, rfl, ?_, ?_, ?_, ?_⟩
  · rw [show (floorHit matte).pos = ⟨0, 0, 0⟩ from rfl, lampQ_direction]
    exact sceneQ_lamp_shaded
  · rw [renderPixel_depth_limit_eq sceneQ glmQ _ _ _ _ _ _ (floorHit matte) (le_refl _)
      sceneQ_primary, sceneQ_localColor]
  · norm_num [sceneQ, floorHit, matte, vec3_mul_def]
  · rw [show (floorHit matte).pos = ⟨0, 0, 0⟩ from rfl, lampQ_direction,
      show (floorHit matte).norm = ⟨0, 1, 0⟩ from rfl, floor_reflection]
    norm_num [specularTerm, glmQ, lampQ, floorHit, matte, dot, vec3_mul_def, Vec3.splat,
      show Int.toNat 2 = 2 from rfl]

/-- Witness for C1: in `sceneQ` the ray from `(0, 1, 0)` straight up has no hit. -/
theorem renderPixel_miss_returns_bgColor_witness :
    findNearestObject sceneQ glmQ ⟨0, 1, 0⟩ ⟨0, 1, 0⟩ ObjectId.none false = none ∧
    _renderPixel sceneQ glmQ 1 ⟨0, 1, 0⟩ ⟨0, 1, 0⟩ ObjectId.none 0 1 = some sceneQ.bgColor :=
  ⟨sceneQ_up_miss,
    renderPixel_miss_returns_bgColor sceneQ glmQ ⟨0, 1, 0⟩ ⟨0, 1, 0⟩ ObjectId.none 0 0 1
      (Or.inl sceneQ_up_miss)⟩

/-- Counterexample to C2 as stated: in `sceneFar` the admissible triangle
passes its intersection test for the ray from the origin along `-z`, at
distance `FLT_MAX`, yet `findNearestObject` returns `false`. -/
theorem findNearestObject_misses_hit_at_FLT_MAX :
    (∃ d h, IsCandidate sceneFar glmQ ⟨0, 0, 0⟩ ⟨0, 0, -1⟩ ObjectId.none false d h) ∧
    dot (⟨0, 0, -1⟩ : Vec3 ℚ) ⟨0, 0, -1⟩ = 1 ∧
    ¬ ((findNearestObject sceneFar glmQ ⟨0, 0, 0⟩ ⟨0, 0, -1⟩ ObjectId.none false).isSome
        = true) := by
  refine ⟨⟨FLT_MAX, farHit, Or.inr ⟨0, sceneFar_triangleHit⟩, by decide, by simp⟩, ?_, ?_⟩
  · norm_num [dot]
  · rw [sceneFar_not_found]
    simp

/-- Witness for C2: the nearest hit of the downward ray in `sceneQ`. -/
theorem findNearestObject_nearest_witness :
    findNearestObject sceneQ glmQ ⟨0, 1, 0⟩ ⟨0, -1, 0⟩ ObjectId.none false
      = some (floorHit matte) ∧
    ∃ d, IsCandidate sceneQ glmQ ⟨0, 1, 0⟩ ⟨0, -1, 0⟩ ObjectId.none false d (floorHit matte) ∧
      d < FLT_MAX ∧
      ∀ d2 h2, IsCandidate sceneQ glmQ ⟨0, 1, 0⟩ ⟨0, -1, 0⟩ ObjectId.none false d2 h2 →
        d ≤ d2 ∧ (d2 = d →
          iterationRank sceneQ (floorHit matte).id ≤ iterationRank sceneQ h2.id) :=
  ⟨sceneQ_primary,
    (findNearestObject_nearest sceneQ glmQ ⟨0, 1, 0⟩ ⟨0, -1, 0⟩ ObjectId.none false).2
      (floorHit matte) sceneQ_primary⟩

/-- Counterexample to C5 as stated: in `sceneFar` an opaque, non-excluded
triangle passes its intersection test at distance `FLT_MAX`, yet `isShaded`
is false. -/
theorem isShaded_ignores_hit_at_FLT_MAX :
    (∃ d h, ((∃ i, SphereHit sceneFar glmQ ⟨0, 0, 0⟩ ⟨0, 0, -1⟩ i d h) ∨
             (∃ i, TriangleHit sceneFar glmQ ⟨0, 0, 0⟩ ⟨0, 0, -1⟩ i d h)) ∧
      h.id ≠ ObjectId.none ∧ h.mat.refract = false) ∧
    dot (⟨0, 0, -1⟩ : Vec3 ℚ) ⟨0, 0, -1⟩ = 1 ∧
    isShaded sceneFar glmQ ⟨0, 0, 0⟩ ⟨0, 0, -1⟩ ObjectId.none = false := by
  refine ⟨⟨FLT_MAX, farHit, Or.inr ⟨0, sceneFar_triangleHit⟩, by decide, rfl⟩, ?_, ?_⟩
  · norm_num [dot]
  · unfold isShaded
    rw [sceneFar_not_found]
    rfl

/-- Witness for C5: the screen shades the origin toward the lamp. -/
theorem isShaded_iff_witness :
    isShaded sceneQ glmQ ⟨0, 0, 0⟩ ⟨3/5, 4/5, 0⟩ ⟨ObjectType.TRIANGLE, 0⟩ = true ∧
    ∃ d h, ((∃ i, SphereHit sceneQ glmQ ⟨0, 0, 0⟩ ⟨3/5, 4/5, 0⟩ i d h) ∨
            (∃ i, TriangleHit sceneQ glmQ ⟨0, 0, 0⟩ ⟨3/5, 4/5, 0⟩ i d h)) ∧
      h.id ≠ ⟨ObjectType.TRIANGLE, 0⟩ ∧ h.mat.refract = false ∧ d < FLT_MAX :=
  ⟨sceneQ_lamp_shaded,
    (isShaded_iff sceneQ glmQ ⟨0, 0, 0⟩ ⟨3/5, 4/5, 0⟩ ⟨ObjectType.TRIANGLE, 0⟩).1.mp
      sceneQ_lamp_shaded⟩

/-- Witness for C6: the floor hit of `sceneQ`. -/
theorem findNearestObject_excludes_witness :
    findNearestObject sceneQ glmQ ⟨0, 1, 0⟩ ⟨0, -1, 0⟩ ObjectId.none false
      = some (floorHit matte) ∧
    ((floorHit matte).id ≠ ObjectId.none ∧
      (false = true → (floorHit matte).mat.refract = false) ∧
      ∀ (dir2 : Vec3 ℚ) (h2 : Hit ℚ),
        findNearestObject sceneQ glmQ (floorHit matte).pos dir2 (floorHit matte).id false
          = some h2 → h2.id ≠ (floorHit matte).id) :=
  ⟨sceneQ_primary,
    findNearestObject_excludes sceneQ glmQ ⟨0, 1, 0⟩ ⟨0, -1, 0⟩ ObjectId.none false
      (floorHit matte) sceneQ_primary⟩

/-- The primary call at depth 0 in `sceneQ` issues the reflection call at depth 1. -/
theorem sceneQ_primary_calls :
    Calls sceneQ glmQ ⟨⟨0, 1, 0⟩, ⟨0, -1, 0⟩, ObjectId.none, 0, 1⟩
      ⟨⟨0, 0, 0⟩, ⟨0, 1, 0⟩, ⟨ObjectType.TRIANGLE, 0⟩, 1, 1⟩ := by
  unfold Calls recursiveCalls
  simp only [sceneQ_primary]
  rw [show (floorHit matte).norm = ⟨0, 1, 0⟩ from rfl, floor_reflection]
  simp [DEPTH_LIMIT, floorHit, matte]

/-- Witness for C7: a recursive call of the primary ray in `sceneQ`. -/
theorem renderPixel_terminates_witness :
    Calls sceneQ glmQ ⟨⟨0, 1, 0⟩, ⟨0, -1, 0⟩, ObjectId.none, 0, 1⟩
      ⟨⟨0, 0, 0⟩, ⟨0, 1, 0⟩, ⟨ObjectType.TRIANGLE, 0⟩, 1, 1⟩ ∧
    ((0 : Int) < DEPTH_LIMIT ∧ (1 : Int) = 0 + 1) ∧
    (_renderPixel sceneQ glmQ 5 ⟨0, 1, 0⟩ ⟨0, -1, 0⟩ ObjectId.none 0 1).isSome = true :=
  ⟨sceneQ_primary_calls,
    (renderPixel_terminates sceneQ glmQ).2.2.1 _ _ sceneQ_primary_calls,
    (renderPixel_terminates sceneQ glmQ).1 ⟨0, 1, 0⟩ ⟨0, -1, 0⟩ ObjectId.none 0 1 0⟩

/-- Witness for C8: the primary ray of `sceneQ` at `depth = DEPTH_LIMIT`. -/
theorem renderPixel_at_depth_limit_local_witness :
    (DEPTH_LIMIT ≤ 4 ∧
      findNearestObject sceneQ glmQ ⟨0, 1, 0⟩ ⟨0, -1, 0⟩ ObjectId.none false
        = some (floorHit matte)) ∧
    (_renderPixel sceneQ glmQ 1 ⟨0, 1, 0⟩ ⟨0, -1, 0⟩ ObjectId.none 4 1
        = some (localColor sceneQ glmQ ⟨0, -1, 0⟩ (floorHit matte)) ∧
      recursiveCalls sceneQ glmQ ⟨⟨0, 1, 0⟩, ⟨0, -1, 0⟩, ObjectId.none, 4, 1⟩ = [] ∧
      ∀ S2 : Scene ℚ, sceneQ.sameLocal S2 →
        _renderPixel S2 glmQ 1 ⟨0, 1, 0⟩ ⟨0, -1, 0⟩ ObjectId.none 4 1
          = _renderPixel sceneQ glmQ 1 ⟨0, 1, 0⟩ ⟨0, -1, 0⟩ ObjectId.none 4 1) :=
  ⟨⟨by decide, sceneQ_primary⟩,
    renderPixel_at_depth_limit_local sceneQ glmQ ⟨0, 1, 0⟩ ⟨0, -1, 0⟩ ObjectId.none 4 1 0
      (floorHit matte) (by decide) sceneQ_primary⟩

/-- Witness for C9: the chalk floor of `sceneOpen` under the single lamp. -/
theorem renderPixel_single_light_diffuse_witness :
    (sceneOpen.lights = [lampQ] ∧
      findNearestObject sceneOpen glmQ ⟨0, 1, 0⟩ ⟨0, -1, 0⟩ ObjectId.none false
        = some (floorHit chalk) ∧
      (floorHit chalk).mat.refract = false ∧
      (floorHit chalk).mat.specularFactor = ⟨0, 0, 0⟩) ∧
    _renderPixel sceneOpen glmQ 1 ⟨0, 1, 0⟩ ⟨0, -1, 0⟩ ObjectId.none DEPTH_LIMIT 1
      = some (sceneOpen.bgColor * (floorHit chalk).mat.ambientFactor +
          (if dot (floorHit chalk).norm (lightDirection glmQ lampQ (floorHit chalk).pos) > 0 ∧
              isShaded sceneOpen glmQ (floorHit chalk).pos
                (lightDirection glmQ lampQ (floorHit chalk).pos) (floorHit chalk).id = false
           then Vec3.splat (dot (floorHit chalk).norm
                  (lightDirection glmQ lampQ (floorHit chalk).pos) * lampQ.intensity)
                  * lampQ.color * (floorHit chalk).mat.diffuseFactor
           else ⟨0, 0, 0⟩)) :=
  ⟨⟨rfl, sceneOpen_primary, rfl, rfl⟩,
    (renderPixel_single_light_diffuse sceneOpen glmQ ⟨0, 1, 0⟩ ⟨0, -1, 0⟩ ObjectId.none 1 0
      (floorHit chalk) lampQ rfl sceneOpen_primary rfl rfl).1⟩

theorem sheetHit_unit : dot sheetHit.norm sheetHit.norm = 1 := by
  norm_num [dot, sheetHit]

/-- Counterexample to C10 as stated: for the unit direction `d = (0, 0, 1)`
parallel to the unit stored normal of a sheet (`isInside = false`) and `n = 1`,
the computed refraction direction is `(0, 0, -1) = -d`, not `d`. -/
theorem refractionDir_parallel_reverses :
    dot (⟨0, 0, 1⟩ : Vec3 ℚ) ⟨0, 0, 1⟩ = 1 ∧
    dot sheetHit.norm sheetHit.norm = 1 ∧
    (⟨0, 0, 1⟩ : Vec3 ℚ) = sheetHit.norm ∧
    sheetHit.isInside = false ∧
    (3 / 2 : ℚ) / sheetHit.mat.refraction = 1 ∧
    refractionDir glmQ ((3 / 2 : ℚ) / sheetHit.mat.refraction) ⟨0, 0, 1⟩
        (refractionNormal sheetHit) = some ⟨0, 0, -1⟩ ∧
    refractionDir glmQ ((3 / 2 : ℚ) / sheetHit.mat.refraction) ⟨0, 0, 1⟩
        (refractionNormal sheetHit) ≠ some ⟨0, 0, 1⟩ := by
  have hn : (3 / 2 : ℚ) / sheetHit.mat.refraction = 1 := by norm_num [sheetHit, glass]
  have hr : refractionDir glmQ ((3 / 2 : ℚ) / sheetHit.mat.refraction) ⟨0, 0, 1⟩
      (refractionNormal sheetHit) = some ⟨0, 0, -1⟩ := by
    rw [hn]
    norm_num [refractionDir, refractionNormal, sheetHit, glmQ, dot, sqrtQ_one, vec3_add_def,
      Vec3.scale]
  refine ⟨by norm_num [dot], sheetHit_unit, rfl, rfl, hn, hr, ?_⟩
  rw [hr]
  intro h
  have := congrArg (fun o => o.map Vec3.z) h
  norm_num at this

/-- Witness for C10: the direction `(0, 0, -1)` against the stored normal
`(0, 0, 1)` of the glass sheet, with `rIndex = 3/2` equal to its refraction. -/
theorem refractionDir_normal_incidence_witness :
    (glmQ.sqrt 1 = 1 ∧ dot sheetHit.norm sheetHit.norm = 1 ∧ sheetHit.isInside = false ∧
      (3 / 2 : ℚ) / sheetHit.mat.refraction = 1 ∧
      (⟨0, 0, -1⟩ : Vec3 ℚ) = -sheetHit.norm) ∧
    refractionDir glmQ ((3 / 2 : ℚ) / sheetHit.mat.refraction) ⟨0, 0, -1⟩
      (refractionNormal sheetHit) = some ⟨0, 0, -1⟩ :=
  have hn : (3 / 2 : ℚ) / sheetHit.mat.refraction = 1 := by norm_num [sheetHit, glass]
  have hdir : (⟨0, 0, -1⟩ : Vec3 ℚ) = -sheetHit.norm := by
    norm_num [sheetHit, vec3_neg_def]
  ⟨⟨sqrtQ_one, sheetHit_unit, rfl, hn, hdir⟩,
    refractionDir_normal_incidence glmQ sheetHit ⟨0, 0, -1⟩ (3 / 2) sqrtQ_one sheetHit_unit
      rfl hn hdir⟩

/-! ## Further properties of `_renderPixel` and `findNearestObject` -/

section Theorems2

variable {α : Type} [LinearOrderedField α]

/-- For a refractive hit the light loop is skipped. -/
theorem localColor_of_refract (S : Scene α) (G : Glm α) (dir : Vec3 α) (h : Hit α)
    (hrefract : h.mat.refract = true) :
    localColor S G dir h = S.bgColor * h.mat.ambientFactor := by
  unfold localColor
  simp [hrefract]

/-- The condition `cosT2 ≤ 0` makes `refractionDir` absent. -/
theorem refractionDir_eq_none (G : Glm α) (n : α) (dir N : Vec3 α)
    (hcos : 1 - n * n * (1 - (-dot N dir) * (-dot N dir)) ≤ 0) :
    refractionDir G n dir N = none := by
  unfold refractionDir
  simp only
  rw [if_neg (not_lt.mpr hcos)]

/-- C11. For a nearest hit on a refractive material with `depth < DEPTH_LIMIT`
and `cosT2 = 1 − n²(1 − cosI²) ≤ 0` (`n = rIndex / refraction`,
`cosI = −dot(N, rayDir)`, `N` the normal negated when `isInside`), the only
recursive call is the reflection call (no refraction ray is traced) and the
returned color is `bgColor ⊙ ambientFactor` plus `reflectionFactor` times the
color returned by `_renderPixel(hitPoint, reflectionDir, hitId, depth + 1,
rIndex)`; with enough fuel that color is returned. -/
theorem renderPixel_total_internal_reflection (S : Scene α) (G : Glm α)
    (rayFrom normalizedRayDir : Vec3 α) (prevObjectID : ObjectId) (depth : Int) (rIndex : α)
    (h : Hit α)
    (hfound : findNearestObject S G rayFrom normalizedRayDir prevObjectID false = some h)
    (hrefract : h.mat.refract = true)
    (hdepth : depth < DEPTH_LIMIT)
    (hcos : 1 - (rIndex / h.mat.refraction) * (rIndex / h.mat.refraction) *
        (1 - (-dot (refractionNormal h) normalizedRayDir) *
          (-dot (refractionNormal h) normalizedRayDir)) ≤ 0) :
    recursiveCalls S G ⟨rayFrom, normalizedRayDir, prevObjectID, depth, rIndex⟩
      = [⟨h.pos, normalize G (reflect normalizedRayDir h.norm), h.id, depth + 1, rIndex⟩] ∧
    (∀ fuel : Nat,
      _renderPixel S G (fuel + 1) rayFrom normalizedRayDir prevObjectID depth rIndex
        = (_renderPixel S G fuel h.pos (normalize G (reflect normalizedRayDir h.norm)) h.id
            (depth + 1) rIndex).map
            (fun r => S.bgColor * h.mat.ambientFactor + r.scale h.mat.reflectionFactor)) ∧
    (∃ r, _renderPixel S G (DEPTH_LIMIT - depth).toNat h.pos
            (normalize G (reflect normalizedRayDir h.norm)) h.id (depth + 1) rIndex = some r ∧
          _renderPixel S G ((DEPTH_LIMIT - depth).toNat + 1) rayFrom normalizedRayDir
            prevObjectID depth rIndex
            = some (S.bgColor * h.mat.ambientFactor + r.scale h.mat.reflectionFactor)) := by
  have hnone := refractionDir_eq_none G (rIndex / h.mat.refraction) normalizedRayDir
    (refractionNormal h) hcos
  have hstep : ∀ fuel : Nat,
      _renderPixel S G (fuel + 1) rayFrom normalizedRayDir prevObjectID depth rIndex
        = (_renderPixel S G fuel h.pos (normalize G (reflect normalizedRayDir h.norm)) h.id
            (depth + 1) rIndex).map
            (fun r => S.bgColor * h.mat.ambientFactor + r.scale h.mat.reflectionFactor) := by
    intro fuel
    simp only [_renderPixel, renderPixelBody, hfound, if_pos hdepth, hrefract, if_true, hnone,
      localColor_of_refract S G normalizedRayDir h hrefract]
    cases _renderPixel S G fuel h.pos (normalize G (reflect normalizedRayDir h.norm)) h.id
        (depth + 1) rIndex <;> rfl
  refine ⟨?_, hstep, ?_⟩
  · simp only [recursiveCalls, hfound, if_pos hdepth, hrefract, if_true, hnone]
  · have hs := renderPixel_isSome S G (DEPTH_LIMIT - depth).toNat h.pos
      (normalize G (reflect normalizedRayDir h.norm)) h.id (depth + 1) rIndex
      (by unfold DEPTH_LIMIT at hdepth ⊢; omega)
    obtain ⟨r, hr⟩ := Option.isSome_iff_exists.mp hs
    exact ⟨r, hr, by rw [hstep, hr]; rfl⟩

/-- C12. For a nearest hit whose material is refractive no light contributes a
diffuse or specular term: the color before the recursive terms is
`bgColor ⊙ ambientFactor`, the returned color is that plus only the recursive
reflection and refraction terms, and at `depth ≥ DEPTH_LIMIT` it is exactly
`bgColor ⊙ ambientFactor` for every list of lights. -/
theorem renderPixel_refractive_no_local (S : Scene α) (G : Glm α)
    (rayFrom normalizedRayDir : Vec3 α) (prevObjectID : ObjectId) (depth : Int) (rIndex : α)
    (h : Hit α)
    (hfound : findNearestObject S G rayFrom normalizedRayDir prevObjectID false = some h)
    (hrefract : h.mat.refract = true) :
    localColor S G normalizedRayDir h = S.bgColor * h.mat.ambientFactor ∧
    (∀ self : Vec3 α → Vec3 α → ObjectId → Int → α → Option (Color α),
      renderPixelBody S G self rayFrom normalizedRayDir prevObjectID depth rIndex
        = if depth < DEPTH_LIMIT then
            match self h.pos (normalize G (reflect normalizedRayDir h.norm)) h.id (depth + 1)
                rIndex with
            | none => none
            | some r1 =>
              match refractionDir G (rIndex / h.mat.refraction) normalizedRayDir
                  (refractionNormal h) with
              | some rdir =>
                (self (h.pos + rdir.scale (1 / 100000)) rdir ObjectId.none (depth + 1)
                    h.mat.refraction).map
                  (fun r2 => S.bgColor * h.mat.ambientFactor + r1.scale h.mat.reflectionFactor
                    + r2.scale h.mat.refractionFactor)
              | none => some (S.bgColor * h.mat.ambientFactor
                  + r1.scale h.mat.reflectionFactor)
          else some (S.bgColor * h.mat.ambientFactor)) ∧
    (DEPTH_LIMIT ≤ depth → ∀ (lights : List (Light α)) (fuel : Nat),
      _renderPixel { S with lights := lights } G (fuel + 1) rayFrom normalizedRayDir
        prevObjectID depth rIndex = some (S.bgColor * h.mat.ambientFactor)) := by
  refine ⟨localColor_of_refract S G normalizedRayDir h hrefract, ?_, ?_⟩
  · intro self
    simp only [renderPixelBody, hfound, hrefract, if_true,
      localColor_of_refract S G normalizedRayDir h hrefract]
    by_cases hd : depth < DEPTH_LIMIT
    · simp only [if_pos hd]
      cases self h.pos (normalize G (reflect normalizedRayDir h.norm)) h.id (depth + 1)
          rIndex with
      | none => rfl
      | some r1 =>
        simp only
        cases refractionDir G (rIndex / h.mat.refraction) normalizedRayDir
            (refractionNormal h) with
        | none => rfl
        | some rdir =>
          simp only
          cases self (h.pos + rdir.scale (1 / 100000)) rdir ObjectId.none (depth + 1)
              h.mat.refraction <;> rfl
    · simp only [if_neg hd]
  · intro hd lights fuel
    have hf2 : findNearestObject { S with lights := lights } G rayFrom normalizedRayDir
        prevObjectID false = some h := hfound
    rw [renderPixel_depth_limit_eq _ G _ _ _ _ _ _ h hd hf2,
      localColor_of_refract _ G normalizedRayDir h hrefract]

/-- C13. When `findNearestObject` returns `true`, the reported primitive is a
sphere or a triangle; `isInside` is false whenever it is a triangle, whatever
earlier candidates had set, and it is true if and only if the reported
primitive is a sphere whose center is at distance strictly less than its
radius from the ray origin. -/
theorem findNearestObject_isInside (S : Scene α) (G : Glm α)
    (rayFrom normalizedRayDir : Vec3 α) (excludeObjectID : ObjectId)
    (excludeTransparentMat : Bool) (h : Hit α)
    (hfound : findNearestObject S G rayFrom normalizedRayDir excludeObjectID
      excludeTransparentMat = some h) :
    (h.id.type = ObjectType.SPHERE ∨ h.id.type = ObjectType.TRIANGLE) ∧
    (h.id.type = ObjectType.TRIANGLE → h.isInside = false) ∧
    (h.isInside = true ↔
      h.id.type = ObjectType.SPHERE ∧
      ∃ obj, S.spheres[h.id.index.toNat]? = some obj ∧
        distance G rayFrom obj.center < obj.radius) := by
  obtain ⟨d, hc, _⟩ := findNearestObject_some_spec S G rayFrom normalizedRayDir
    excludeObjectID excludeTransparentMat h hfound
  rcases hc.1 with ⟨i, obj, pos, norm, hi, _, _, hh⟩ | ⟨i, obj, b, _, _, _, hh⟩
  · subst hh
    refine ⟨Or.inl rfl, (fun ht => by cases ht), ?_⟩
    simp only [Int.toNat_ofNat, hi, Option.some.injEq, exists_eq_left', decide_eq_true_eq,
      true_and]
  · subst hh
    refine ⟨Or.inr rfl, fun _ => rfl, ?_⟩
    constructor
    · intro hf; cases hf
    · rintro ⟨ht, _⟩; cases ht

/-- C15. For a unit surface normal `N` and the incoming ray direction
`d = −N`, the mirror-reflection direction computed by `_renderPixel`,
`normalize(reflect(d, N))` with `reflect(d, N) = d − 2·dot(N, d)·N`, equals
`−d` (given `sqrt 1 = 1`). -/
theorem reflect_normal_incidence (G : Glm α) (N d : Vec3 α)
    (hsqrt : G.sqrt 1 = 1)
    (hunit : dot N N = 1)
    (hd : d = -N) :
    reflect d N = d - (N.scale (dot N d)).scale 2 ∧
    normalize G (reflect d N) = -d := by
  refine ⟨rfl, ?_⟩
  have hdot : dot N d = -1 := by
    rw [hd, ← hunit]
    simp only [dot, vec3_neg_def]
    ring
  have hrefl : reflect d N = N := by
    unfold reflect
    rw [hdot, hd]
    obtain ⟨x, y, z⟩ := N
    simp only [vec3_sub_def, vec3_neg_def, Vec3.scale, Vec3.mk.injEq]
    refine ⟨by ring, by ring, by ring⟩
  rw [hrefl, hd]
  unfold normalize
  rw [hunit, hsqrt]
  obtain ⟨x, y, z⟩ := N
  simp [vec3_neg_def, Vec3.scale]

/-- The squared length of the refraction direction is `1` for unit `d` and `N`. -/
theorem refraction_sq_length (n s : α) (d N : Vec3 α)
    (hd : dot d d = 1) (hN : dot N N = 1)
    (hs : s * s = 1 - n * n * (1 - (-dot N d) * (-dot N d))) :
    dot (d.scale n + N.scale (n * (-dot N d) - s)) (d.scale n + N.scale (n * (-dot N d) - s))
      = 1 := by
  obtain ⟨dx, dy, dz⟩ := d
  obtain ⟨nx, ny, nz⟩ := N
  simp only [dot, vec3_add_def, Vec3.scale] at hd hN hs ⊢
  linear_combination
    (n * n) * hd + hs + ((n * (-(nx * dx + ny * dy + nz * dz)) - s) ^ 2) * hN

/-- C17. For a refractive nearest hit with `depth < DEPTH_LIMIT`, a unit ray
direction `d`, a unit normal `N` (after the `isInside` flip) and
`cosT2 = 1 − n²(1 − cosI²) > 0`, the refraction direction
`n·d + (n·cosI − sqrt(cosT2))·N` is passed unchanged as `normalizedRayDir` of
the recursive refraction call and has squared length and length exactly `1`
(given `sqrt(cosT2)² = cosT2` and `sqrt 1 = 1`). -/
theorem refractionDir_unit (S : Scene α) (G : Glm α)
    (rayFrom normalizedRayDir : Vec3 α) (prevObjectID : ObjectId) (depth : Int) (rIndex : α)
    (h : Hit α)
    (hfound : findNearestObject S G rayFrom normalizedRayDir prevObjectID false = some h)
    (hrefract : h.mat.refract = true)
    (hdepth : depth < DEPTH_LIMIT)
    (hd : dot normalizedRayDir normalizedRayDir = 1)
    (hN : dot (refractionNormal h) (refractionNormal h) = 1)
    (hcos : 0 < 1 - (rIndex / h.mat.refraction) * (rIndex / h.mat.refraction) *
        (1 - (-dot (refractionNormal h) normalizedRayDir) *
          (-dot (refractionNormal h) normalizedRayDir)))
    (hsq : G.sqrt (1 - (rIndex / h.mat.refraction) * (rIndex / h.mat.refraction) *
        (1 - (-dot (refractionNormal h) normalizedRayDir) *
          (-dot (refractionNormal h) normalizedRayDir)))
      * G.sqrt (1 - (rIndex / h.mat.refraction) * (rIndex / h.mat.refraction) *
        (1 - (-dot (refractionNormal h) normalizedRayDir) *
          (-dot (refractionNormal h) normalizedRayDir)))
      = 1 - (rIndex / h.mat.refraction) * (rIndex / h.mat.refraction) *
        (1 - (-dot (refractionNormal h) normalizedRayDir) *
          (-dot (refractionNormal h) normalizedRayDir)))
    (hsqrt : G.sqrt 1 = 1) :
    ∃ r, refractionDir G (rIndex / h.mat.refraction) normalizedRayDir (refractionNormal h)
          = some r ∧
      Calls S G ⟨rayFrom, normalizedRayDir, prevObjectID, depth, rIndex⟩
        ⟨h.pos + r.scale (1 / 100000), r, ObjectId.none, depth + 1, h.mat.refraction⟩ ∧
      dot r r = 1 ∧ length G r = 1 := by
  have hr : refractionDir G (rIndex / h.mat.refraction) normalizedRayDir (refractionNormal h)
      = some (normalizedRayDir.scale (rIndex / h.mat.refraction) +
          (refractionNormal h).scale ((rIndex / h.mat.refraction) *
            (-dot (refractionNormal h) normalizedRayDir) -
            G.sqrt (1 - (rIndex / h.mat.refraction) * (rIndex / h.mat.refraction) *
              (1 - (-dot (refractionNormal h) normalizedRayDir) *
                (-dot (refractionNormal h) normalizedRayDir))))) := by
    unfold refractionDir
    simp only
    rw [if_pos hcos]
  have hlen := refraction_sq_length (rIndex / h.mat.refraction) _ normalizedRayDir
    (refractionNormal h) hd hN hsq
  refine ⟨_, hr, ?_, hlen, ?_⟩
  · unfold Calls
    simp only [recursiveCalls, hfound, if_pos hdepth, hrefract, if_true, hr]
    exact List.mem_cons_of_mem _ (List.mem_singleton.mpr rfl)
  · unfold length
    rw [hlen, hsqrt]

theorem nonneg_add {a b : Vec3 α} (ha : a.NonNeg) (hb : b.NonNeg) : (a + b).NonNeg :=
  ⟨add_nonneg ha.1 hb.1, add_nonneg ha.2.1 hb.2.1, add_nonneg ha.2.2 hb.2.2⟩

theorem nonneg_mul {a b : Vec3 α} (ha : a.NonNeg) (hb : b.NonNeg) : (a * b).NonNeg :=
  ⟨mul_nonneg ha.1 hb.1, mul_nonneg ha.2.1 hb.2.1, mul_nonneg ha.2.2 hb.2.2⟩

theorem nonneg_scale {a : Vec3 α} {s : α} (ha : a.NonNeg) (hs : 0 ≤ s) : (a.scale s).NonNeg :=
  ⟨mul_nonneg ha.1 hs, mul_nonneg ha.2.1 hs, mul_nonneg ha.2.2 hs⟩

theorem nonneg_splat {s : α} (hs : 0 ≤ s) : (Vec3.splat s).NonNeg := ⟨hs, hs, hs⟩

/-- The material reported by `findNearestObject` is the material of a
primitive of the scene. -/
theorem findNearestObject_mat_nonneg (S : Scene α) (G : Glm α) (rayFrom dir : Vec3 α)
    (ex : ObjectId) (exT : Bool) (h : Hit α) (hS : S.NonNeg)
    (hfound : findNearestObject S G rayFrom dir ex exT = some h) : h.mat.NonNeg := by
  obtain ⟨d, hc, _⟩ := findNearestObject_some_spec S G rayFrom dir ex exT h hfound
  rcases hc.1 with ⟨i, obj, pos, norm, hi, _, _, hh⟩ | ⟨i, obj, b, hi, _, _, hh⟩
  · subst hh
    exact hS.2.2.1 obj (List.mem_iff_getElem?.mpr ⟨i, hi⟩)
  · subst hh
    exact hS.2.2.2 obj (List.mem_iff_getElem?.mpr ⟨i, hi⟩)

/-- One light adds only non-negative terms. -/
theorem lightStep_nonneg (S : Scene α) (G : Glm α) (h : Hit α) (reflectionDir : Vec3 α)
    (c : Color α) (light : Light α)
    (hpow : ∀ t s : α, 0 < t → 0 ≤ G.powf t s)
    (hm : h.mat.NonNeg) (hl : 0 ≤ light.intensity ∧ light.color.NonNeg) (hc : c.NonNeg) :
    (lightStep S G h reflectionDir c light).NonNeg := by
  unfold lightStep
  simp only
  have hc1 : (if dot h.norm (lightDirection G light h.pos) > 0 ∧
      isShaded S G h.pos (lightDirection G light h.pos) h.id = false
      then c + diffuseTerm light h.mat (dot h.norm (lightDirection G light h.pos))
      else c).NonNeg := by
    split
    · rename_i hcond
      exact nonneg_add hc (nonneg_mul (nonneg_mul
        (nonneg_splat (mul_nonneg (le_of_lt hcond.1) hl.1)) hl.2) hm.2.1)
    · exact hc
  split
  · rename_i hcond
    exact nonneg_add hc1 (nonneg_mul (nonneg_mul
      (nonneg_splat (mul_nonneg (hpow _ _ hcond.1) hl.1)) hl.2) hm.2.2.1)
  · exact hc1

theorem lights_foldl_nonneg (S : Scene α) (G : Glm α) (h : Hit α) (reflectionDir : Vec3 α)
    (hpow : ∀ t s : α, 0 < t → 0 ≤ G.powf t s) (hm : h.mat.NonNeg) :
    ∀ (lights : List (Light α)) (c : Color α),
      (∀ l ∈ lights, 0 ≤ l.intensity ∧ l.color.NonNeg) → c.NonNeg →
      (lights.foldl (lightStep S G h reflectionDir) c).NonNeg := by
  intro lights
  induction lights with
  | nil => intro c _ hc; exact hc
  | cons l rest ih =>
    intro c hl hc
    simp only [List.foldl_cons]
    exact ih _ (fun l2 hl2 => hl l2 (List.mem_cons_of_mem _ hl2))
      (lightStep_nonneg S G h reflectionDir c l hpow hm (hl l (List.mem_cons_self _ _)) hc)

theorem localColor_nonneg (S : Scene α) (G : Glm α) (dir : Vec3 α) (h : Hit α)
    (hpow : ∀ t s : α, 0 < t → 0 ≤ G.powf t s) (hS : S.NonNeg) (hm : h.mat.NonNeg) :
    (localColor S G dir h).NonNeg := by
  unfold localColor
  simp only
  split
  · exact lights_foldl_nonneg S G h _ hpow hm S.lights _ hS.2.1 (nonneg_mul hS.1 hm.1)
  · exact nonneg_mul hS.1 hm.1

/-- Every color returned by `_renderPixel` in a non-negative scene is non-negative. -/
theorem renderPixel_nonneg_of_some (S : Scene α) (G : Glm α)
    (hpow : ∀ t s : α, 0 < t → 0 ≤ G.powf t s) (hS : S.NonNeg) :
    ∀ (fuel : Nat) (rayFrom dir : Vec3 α) (prev : ObjectId) (depth : Int) (rIndex : α)
      (c : Color α),
      _renderPixel S G fuel rayFrom dir prev depth rIndex = some c → c.NonNeg := by
  intro fuel
  induction fuel with
  | zero => intro _ _ _ _ _ c hc; simp [_renderPixel] at hc
  | succ n ih =>
    intro rayFrom dir prev depth rIndex c hc
    simp only [_renderPixel, renderPixelBody] at hc
    cases hf : findNearestObject S G rayFrom dir prev false with
    | none =>
      rw [hf] at hc
      simp only [Option.some.injEq] at hc
      rw [← hc]; exact hS.1
    | some h =>
      rw [hf] at hc
      simp only at hc
      have hm := findNearestObject_mat_nonneg S G rayFrom dir prev false h hS hf
      have hloc := localColor_nonneg S G dir h hpow hS hm
      by_cases hd : depth < DEPTH_LIMIT
      · rw [if_pos hd] at hc
        cases h1 : _renderPixel S G n h.pos (normalize G (reflect dir h.norm)) h.id (depth + 1)
            rIndex with
        | none => rw [h1] at hc; cases hc
        | some r1 =>
          rw [h1] at hc
          simp only at hc
          have hr1 := ih _ _ _ _ _ r1 h1
          have hc1 := nonneg_add hloc (nonneg_scale hr1 hm.2.2.2.1)
          cases hrf : h.mat.refract with
          | false =>
            rw [hrf] at hc
            simp only [Bool.false_eq_true, if_false, Option.some.injEq] at hc
            rw [← hc]; exact hc1
          | true =>
            rw [hrf] at hc
            simp only [if_true] at hc
            cases hrd : refractionDir G (rIndex / h.mat.refraction) dir (refractionNormal h) with
            | none =>
              rw [hrd] at hc
              simp only [Option.some.injEq] at hc
              rw [← hc]; exact hc1
            | some rdir =>
              rw [hrd] at hc
              simp only at hc
              cases h2 : _renderPixel S G n (h.pos + rdir.scale (1 / 100000)) rdir
                  ObjectId.none (depth + 1) h.mat.refraction with
              | none => rw [h2] at hc; cases hc
              | some r2 =>
                rw [h2] at hc
                simp only [Option.some.injEq] at hc
                rw [← hc]
                exact nonneg_add hc1 (nonneg_scale (ih _ _ _ _ _ r2 h2) hm.2.2.2.2)
      · rw [if_neg hd] at hc
        simp only [Option.some.injEq] at hc
        rw [← hc]; exact hloc

end Theorems2

/-! ## Evaluation on the further concrete scenes -/

theorem natSqrt_9 : natSqrt 9 = 3 := by decide

theorem natSqrt_36 : natSqrt 36 = 6 := by decide

theorem sqrtQ_36 : sqrtQ 36 = 6 := by
  simp [sqrtQ, natSqrt_one, natSqrt_36]

theorem num_9_25 : (9 / 25 : ℚ).num = 9 := by
  have := Rat.num_div_eq_of_coprime (a := 9) (b := 25) (by norm_num) (by decide)
  simpa using this

theorem den_9_25 : (9 / 25 : ℚ).den = 25 := by
  have := Rat.den_div_eq_of_coprime (a := 9) (b := 25) (by norm_num) (by decide)
  have h2 : ((9 / 25 : ℚ).den : ℤ) = 25 := by simpa using this
  exact_mod_cast h2

theorem sqrtQ_9_25 : sqrtQ (9 / 25) = 3 / 5 := by
  simp [sqrtQ, num_9_25, den_9_25, natSqrt_9, natSqrt_25]

theorem sceneGlass_oblique :
    findNearestObject sceneGlass glmQ ⟨-3/4, 1, 0⟩ ⟨3/5, -4/5, 0⟩ ObjectId.none false
      = some (floorHit glass) := by
  norm_num [findNearestObject, sceneGlass, glmQ, sphereLoop, triangleLoop, sphereStep,
    triangleStep, sphereSkipped, triangleSkipped, sphereCand, triangleCand, pick,
    ObjectId.none, invalid_ne_sphere, invalid_ne_triangle, FLT_MAX, floorQ, screenQ, backdropQ,
    floorHit, matte, chalk, glass, intersectRaySphereQ, intersectRayTriangleQ, dot, cross,
    epsilonQ, distance, length, vec3_add_def, vec3_sub_def, Vec3.scale, sqrtQ_one, sqrtQ_25,
    sqrtQ_36]

theorem sceneGlass_primary :
    findNearestObject sceneGlass glmQ ⟨0, 1, 0⟩ ⟨0, -1, 0⟩ ObjectId.none false
      = some (floorHit glass) := by
  norm_num [findNearestObject, sceneGlass, glmQ, sphereLoop, triangleLoop, sphereStep,
    triangleStep, sphereSkipped, triangleSkipped, sphereCand, triangleCand, pick,
    ObjectId.none, invalid_ne_sphere, invalid_ne_triangle, FLT_MAX, floorQ, screenQ, backdropQ,
    floorHit, matte, chalk, glass, intersectRaySphereQ, intersectRayTriangleQ, dot, cross,
    epsilonQ, distance, length, vec3_add_def, vec3_sub_def, Vec3.scale, sqrtQ_one, sqrtQ_25,
    sqrtQ_36]

theorem sceneInside_primary :
    findNearestObject sceneInside glmQ ⟨0, 1, 0⟩ ⟨0, -1, 0⟩ ObjectId.none false
      = some (floorHit matte) := by
  norm_num [findNearestObject, sceneInside, glmQ, sphereLoop, triangleLoop, sphereStep,
    triangleStep, sphereSkipped, triangleSkipped, sphereCand, triangleCand, pick,
    ObjectId.none, invalid_ne_sphere, invalid_ne_triangle, FLT_MAX, floorQ, screenQ, backdropQ,
    floorHit, matte, chalk, glass, intersectRaySphereQ, intersectRayTriangleQ, dot, cross,
    epsilonQ, distance, length, vec3_add_def, vec3_sub_def, Vec3.scale, sqrtQ_one, sqrtQ_25,
    sqrtQ_36]

theorem sceneInside_sphere_test :
    intersectRaySphereQ ⟨0, 1, 0⟩ ⟨0, -1, 0⟩ ⟨0, 0, 0⟩ 5 = some (⟨0, -5, 0⟩, ⟨0, -1, 0⟩) := by
  norm_num [intersectRaySphereQ, dot, epsilonQ, vec3_add_def, vec3_sub_def, Vec3.scale,
    sqrtQ_25]

theorem sceneInside_sphereHit :
    SphereHit sceneInside glmQ ⟨0, 1, 0⟩ ⟨0, -1, 0⟩ 0 6 insideSphereHit := by
  refine ⟨⟨⟨0, 0, 0⟩, 5, matte⟩, ⟨0, -5, 0⟩, ⟨0, -1, 0⟩, rfl, sceneInside_sphere_test, ?_, ?_⟩
  · norm_num [distance, length, glmQ, dot, vec3_sub_def, sqrtQ_36]
  · norm_num [insideSphereHit, distance, length, glmQ, dot, vec3_sub_def, sqrtQ_one]

theorem sceneBehind_primary :
    findNearestObject sceneBehind glmQ ⟨0, 1, 0⟩ ⟨0, -1, 0⟩ ObjectId.none false
      = some (floorHit chalk) := by
  norm_num [findNearestObject, sceneBehind, glmQ, sphereLoop, triangleLoop, sphereStep,
    triangleStep, sphereSkipped, triangleSkipped, sphereCand, triangleCand, pick,
    ObjectId.none, invalid_ne_sphere, invalid_ne_triangle, FLT_MAX, floorQ, screenQ, backdropQ,
    floorHit, matte, chalk, glass, intersectRaySphereQ, intersectRayTriangleQ, dot, cross,
    epsilonQ, distance, length, vec3_add_def, vec3_sub_def, Vec3.scale, sqrtQ_one, sqrtQ_25,
    sqrtQ_36]

theorem backdrop_test :
    intersectRayTriangleQ ⟨0, 0, 0⟩ ⟨3/5, 4/5, 0⟩ backdropQ.vertex0 backdropQ.vertex1
      backdropQ.vertex2 = some ⟨1/4, 1/2, 10⟩ := by
  norm_num [backdropQ, intersectRayTriangleQ, dot, cross, epsilonQ, vec3_sub_def]

theorem sceneBehind_lamp_shaded :
    isShaded sceneBehind glmQ ⟨0, 0, 0⟩ ⟨3/5, 4/5, 0⟩ ⟨ObjectType.TRIANGLE, 0⟩ = true := by
  norm_num [isShaded, findNearestObject, sceneBehind, glmQ, sphereLoop, triangleLoop, sphereStep,
    triangleStep, sphereSkipped, triangleSkipped, sphereCand, triangleCand, pick,
    ObjectId.none, invalid_ne_sphere, invalid_ne_triangle, FLT_MAX, floorQ, screenQ, backdropQ,
    floorHit, matte, chalk, glass, intersectRaySphereQ, intersectRayTriangleQ, dot, cross,
    epsilonQ, distance, length, vec3_add_def, vec3_sub_def, Vec3.scale, sqrtQ_one, sqrtQ_25,
    sqrtQ_36]

theorem sceneOpen_lamp_unshaded :
    isShaded sceneOpen glmQ ⟨0, 0, 0⟩ ⟨3/5, 4/5, 0⟩ ⟨ObjectType.TRIANGLE, 0⟩ = false := by
  norm_num [isShaded, findNearestObject, sceneOpen, glmQ, sphereLoop, triangleLoop, sphereStep,
    triangleStep, sphereSkipped, triangleSkipped, sphereCand, triangleCand, pick,
    ObjectId.none, invalid_ne_sphere, invalid_ne_triangle, FLT_MAX, floorQ, screenQ, backdropQ,
    floorHit, matte, chalk, glass, intersectRaySphereQ, intersectRayTriangleQ, dot, cross,
    epsilonQ, distance, length, vec3_add_def, vec3_sub_def, Vec3.scale, sqrtQ_one, sqrtQ_25,
    sqrtQ_36]

theorem sceneBright_unshaded (dir : Vec3 ℚ) :
    isShaded sceneBright glmQ ⟨0, 0, 0⟩ dir ⟨ObjectType.TRIANGLE, 0⟩ = false := by
  norm_num [isShaded, findNearestObject, sceneBright, sphereLoop, triangleLoop, triangleStep,
    triangleSkipped]

/-- The color before recursion at the floor point of a scene with the single
lamp and a chalk floor: ambient `1/4`, plus the diffuse term `2/5` when the
lamp is not shaded. -/
theorem chalk_localColor (S : Scene ℚ) (hl : S.lights = [lampQ]) (hb : S.bgColor = ⟨1, 1, 1⟩) :
    localColor S glmQ ⟨0, -1, 0⟩ (floorHit chalk)
      = if isShaded S glmQ ⟨0, 0, 0⟩ ⟨3/5, 4/5, 0⟩ ⟨ObjectType.TRIANGLE, 0⟩ = false
        then ⟨13/20, 13/20, 13/20⟩ else ⟨1/4, 1/4, 1/4⟩ := by
  unfold localColor
  rw [show (floorHit chalk).norm = ⟨0, 1, 0⟩ from rfl, floor_reflection]
  simp only [show (floorHit chalk).mat.refract = false from rfl, if_true, hl, hb,
    List.foldl_cons, List.foldl_nil]
  simp only [lightStep, show (floorHit chalk).pos = ⟨0, 0, 0⟩ from rfl, lampQ_direction,
    show (floorHit chalk).id = ⟨ObjectType.TRIANGLE, 0⟩ from rfl]
  cases isShaded S glmQ ⟨0, 0, 0⟩ ⟨3/5, 4/5, 0⟩ ⟨ObjectType.TRIANGLE, 0⟩ <;>
    cases isShaded S glmQ ⟨0, 0, 0⟩ ⟨0, 1, 0⟩ ⟨ObjectType.TRIANGLE, 0⟩ <;>
    norm_num [floorHit, dot, specularTerm, diffuseTerm, lampQ, chalk, glmQ,
      vec3_add_def, vec3_mul_def, Vec3.splat]

theorem sceneBright_primary :
    findNearestObject sceneBright glmQ ⟨0, 1, 0⟩ ⟨0, -1, 0⟩ ObjectId.none false
      = some (floorHit matte) := by
  norm_num [findNearestObject, sceneBright, glmQ, sphereLoop, triangleLoop, sphereStep,
    triangleStep, sphereSkipped, triangleSkipped, sphereCand, triangleCand, pick,
    ObjectId.none, invalid_ne_sphere, invalid_ne_triangle, FLT_MAX, floorQ, screenQ, backdropQ,
    floorHit, matte, chalk, glass, intersectRaySphereQ, intersectRayTriangleQ, dot, cross,
    epsilonQ, distance, length, vec3_add_def, vec3_sub_def, Vec3.scale, sqrtQ_one, sqrtQ_25,
    sqrtQ_36]

theorem sceneBright_localColor :
    localColor sceneBright glmQ ⟨0, -1, 0⟩ (floorHit matte) = ⟨129/100, 129/100, 129/100⟩ := by
  unfold localColor
  rw [show (floorHit matte).norm = ⟨0, 1, 0⟩ from rfl, floor_reflection]
  simp only [show (floorHit matte).mat.refract = false from rfl, if_true,
    show sceneBright.lights = [lampQ] from rfl, List.foldl_cons, List.foldl_nil]
  simp only [lightStep, show (floorHit matte).pos = ⟨0, 0, 0⟩ from rfl, lampQ_direction,
    show (floorHit matte).id = ⟨ObjectType.TRIANGLE, 0⟩ from rfl, sceneBright_unshaded]
  norm_num [floorHit, dot, specularTerm, diffuseTerm, lampQ, matte, glmQ, sceneBright,
    vec3_add_def, vec3_mul_def, Vec3.splat, show Int.toNat 2 = 2 from rfl]

theorem matte_nonneg : matte.NonNeg := by
  norm_num [Material.NonNeg, Vec3.NonNeg, matte]

theorem sceneBright_nonneg : sceneBright.NonNeg := by
  refine ⟨by norm_num [Vec3.NonNeg, sceneBright], ?_, ?_, ?_⟩
  · intro l hl
    have : l = lampQ := by simpa [sceneBright] using hl
    subst this
    norm_num [Vec3.NonNeg, lampQ]
  · intro o ho
    simp [sceneBright] at ho
  · intro o ho
    have : o = floorQ matte := by simpa [sceneBright] using ho
    subst this
    exact matte_nonneg

theorem glmQ_powf_nonneg : ∀ t s : ℚ, 0 < t → 0 ≤ glmQ.powf t s := by
  intro t s ht
  exact pow_nonneg (le_of_lt ht) _

/-- The band loop of `render` ends whenever the step `height / ntasks` is positive. -/
theorem renderBands_isSome (height : Int) (hstep : 0 < Int.tdiv height ntasks) :
    ∀ (fuel : Nat) (y : Int), (height - y).toNat + 1 ≤ fuel →
      (renderBands height fuel y).isSome = true := by
  intro fuel
  induction fuel with
  | zero => intro y h; omega
  | succ n ih =>
    intro y hfuel
    simp only [renderBands]
    by_cases hy : y < height
    · rw [if_pos hy]
      have := ih (y + Int.tdiv height ntasks) (by omega)
      simpa using this
    · rw [if_neg hy]
      rfl

/-- For `height ≥ 4` the band loop of `render` ends within `height + 1` iterations. -/
theorem render_terminates_of_four_le (height : Int) (h4 : 4 ≤ height) :
    (render height (height.toNat + 1)).isSome = true := by
  have hstep : 0 < Int.tdiv height ntasks := by
    unfold ntasks
    rw [Int.tdiv_eq_ediv (by omega) (by decide)]
    omega
  exact renderBands_isSome height hstep _ 0 (by omega)


theorem sheetGlass_normal : refractionNormal (floorHit glass) = ⟨0, 1, 0⟩ := by
  simp [refractionNormal, floorHit]

/-- Witness for C11: in `sceneGlass` the oblique ray `(3/5, -4/5, 0)` reaches the
glass floor with `rIndex = 3`, so `n = 2` and `cosT2 = -11/25`. -/
theorem renderPixel_total_internal_reflection_witness :
    (findNearestObject sceneGlass glmQ ⟨-3/4, 1, 0⟩ ⟨3/5, -4/5, 0⟩ ObjectId.none false
        = some (floorHit glass) ∧
      (floorHit glass).mat.refract = true ∧ (0 : Int) < DEPTH_LIMIT ∧
      1 - ((3 : ℚ) / (floorHit glass).mat.refraction) * (3 / (floorHit glass).mat.refraction) *
        (1 - (-dot (refractionNormal (floorHit glass)) ⟨3/5, -4/5, 0⟩) *
          (-dot (refractionNormal (floorHit glass)) ⟨3/5, -4/5, 0⟩)) ≤ 0) ∧
    recursiveCalls sceneGlass glmQ ⟨⟨-3/4, 1, 0⟩, ⟨3/5, -4/5, 0⟩, ObjectId.none, 0, 3⟩
      = [⟨(floorHit glass).pos,
          normalize glmQ (reflect ⟨3/5, -4/5, 0⟩ (floorHit glass).norm),
          (floorHit glass).id, 0 + 1, 3⟩] :=
  have hcos : 1 - ((3 : ℚ) / (floorHit glass).mat.refraction) *
      (3 / (floorHit glass).mat.refraction) *
      (1 - (-dot (refractionNormal (floorHit glass)) ⟨3/5, -4/5, 0⟩) *
        (-dot (refractionNormal (floorHit glass)) ⟨3/5, -4/5, 0⟩)) ≤ 0 := by
    rw [sheetGlass_normal]
    norm_num [floorHit, glass, dot]
  ⟨⟨sceneGlass_oblique, rfl, by decide, hcos⟩,
    (renderPixel_total_internal_reflection sceneGlass glmQ ⟨-3/4, 1, 0⟩ ⟨3/5, -4/5, 0⟩
      ObjectId.none 0 3 (floorHit glass) sceneGlass_oblique rfl (by decide) hcos).1⟩

/-- Witness for C12: the glass floor of `sceneGlass` at `depth = DEPTH_LIMIT`,
with the lamp replaced by any list of lights. -/
theorem renderPixel_refractive_no_local_witness :
    (findNearestObject sceneGlass glmQ ⟨0, 1, 0⟩ ⟨0, -1, 0⟩ ObjectId.none false
        = some (floorHit glass) ∧ (floorHit glass).mat.refract = true) ∧
    (DEPTH_LIMIT ≤ DEPTH_LIMIT → ∀ (lights : List (Light ℚ)) (fuel : Nat),
      _renderPixel { sceneGlass with lights := lights } glmQ (fuel + 1) ⟨0, 1, 0⟩ ⟨0, -1, 0⟩
        ObjectId.none DEPTH_LIMIT 1
        = some (sceneGlass.bgColor * (floorHit glass).mat.ambientFactor)) :=
  ⟨⟨sceneGlass_primary, rfl⟩,
    (renderPixel_refractive_no_local sceneGlass glmQ ⟨0, 1, 0⟩ ⟨0, -1, 0⟩ ObjectId.none
      DEPTH_LIMIT 1 (floorHit glass) sceneGlass_primary rfl).2.2⟩

/-- Witness for C13: in `sceneInside` the ray starts inside the sphere, which is
tested first and is a candidate at distance 6 with `isInside = true`; the
floor at distance 1 is reported, with `isInside = false`. -/
theorem findNearestObject_isInside_witness :
    (findNearestObject sceneInside glmQ ⟨0, 1, 0⟩ ⟨0, -1, 0⟩ ObjectId.none false
        = some (floorHit matte) ∧
      SphereHit sceneInside glmQ ⟨0, 1, 0⟩ ⟨0, -1, 0⟩ 0 6 insideSphereHit ∧
      insideSphereHit.isInside = true) ∧
    ((floorHit matte).id.type = ObjectType.TRIANGLE → (floorHit matte).isInside = false) :=
  ⟨⟨sceneInside_primary, sceneInside_sphereHit, rfl⟩,
    (findNearestObject_isInside sceneInside glmQ ⟨0, 1, 0⟩ ⟨0, -1, 0⟩ ObjectId.none false
      (floorHit matte) sceneInside_primary).2.1⟩

/-- C14 (evaluation at the failing input). For `height = 9` the band loop of
`render` ends after launching five tasks, not `ntasks = 4`. -/
theorem render_height_nine_five_tasks :
    ntasks = 4 ∧
    (render 9 6).map List.length = some 5 ∧
    (∀ fuel, 6 ≤ fuel → (render 9 fuel).map List.length = some 5) := by
  refine ⟨rfl, by decide, ?_⟩
  intro fuel hfuel
  obtain ⟨k, rfl⟩ : ∃ k, fuel = k + 6 := ⟨fuel - 6, by omega⟩
  simp [render, renderBands, ntasks, show Int.tdiv 9 4 = 2 from rfl]

/-- Witness for C15: the floor normal `(0, 1, 0)` and the ray straight down. -/
theorem reflect_normal_incidence_witness :
    (glmQ.sqrt 1 = 1 ∧ dot (⟨0, 1, 0⟩ : Vec3 ℚ) ⟨0, 1, 0⟩ = 1 ∧
      (⟨0, -1, 0⟩ : Vec3 ℚ) = -⟨0, 1, 0⟩) ∧
    normalize glmQ (reflect ⟨0, -1, 0⟩ ⟨0, 1, 0⟩) = -(⟨0, -1, 0⟩ : Vec3 ℚ) :=
  have hunit : dot (⟨0, 1, 0⟩ : Vec3 ℚ) ⟨0, 1, 0⟩ = 1 := by norm_num [dot]
  have hd : (⟨0, -1, 0⟩ : Vec3 ℚ) = -⟨0, 1, 0⟩ := by norm_num [vec3_neg_def]
  ⟨⟨sqrtQ_one, hunit, hd⟩,
    (reflect_normal_incidence glmQ ⟨0, 1, 0⟩ ⟨0, -1, 0⟩ sqrtQ_one hunit hd).2⟩

/-- C16 (evaluation at the failing input). For `height = 3` the step
`height / ntasks` is `0`, and the band loop of `render` has not ended after
any number of iterations. -/
theorem render_height_three_never_ends :
    (0 : Int) < 3 ∧ Int.tdiv 3 ntasks = 0 ∧ ∀ fuel : Nat, render 3 fuel = none :=
  ⟨by decide, by decide, fun fuel => render_small_height_diverges 3 (by decide) (by decide) fuel⟩

/-- Witness for C17: in `sceneGlass` the oblique ray `(3/5, -4/5, 0)` reaches the
glass floor with `rIndex = 2`, so `n = 4/3` and `cosT2 = 9/25`. -/
theorem refractionDir_unit_witness :
    (findNearestObject sceneGlass glmQ ⟨-3/4, 1, 0⟩ ⟨3/5, -4/5, 0⟩ ObjectId.none false
        = some (floorHit glass) ∧
      (floorHit glass).mat.refract = true ∧ (0 : Int) < DEPTH_LIMIT ∧
      dot (⟨3/5, -4/5, 0⟩ : Vec3 ℚ) ⟨3/5, -4/5, 0⟩ = 1 ∧
      dot (refractionNormal (floorHit glass)) (refractionNormal (floorHit glass)) = 1 ∧
      1 - ((2 : ℚ) / (floorHit glass).mat.refraction) * (2 / (floorHit glass).mat.refraction) *
        (1 - (-dot (refractionNormal (floorHit glass)) ⟨3/5, -4/5, 0⟩) *
          (-dot (refractionNormal (floorHit glass)) ⟨3/5, -4/5, 0⟩)) = 9 / 25) ∧
    ∃ r, refractionDir glmQ ((2 : ℚ) / (floorHit glass).mat.refraction) ⟨3/5, -4/5, 0⟩
          (refractionNormal (floorHit glass)) = some r ∧
      Calls sceneGlass glmQ ⟨⟨-3/4, 1, 0⟩, ⟨3/5, -4/5, 0⟩, ObjectId.none, 0, 2⟩
        ⟨(floorHit glass).pos + r.scale (1 / 100000), r, ObjectId.none, 0 + 1,
          (floorHit glass).mat.refraction⟩ ∧
      dot r r = 1 ∧ length glmQ r = 1 :=
  have hd : dot (⟨3/5, -4/5, 0⟩ : Vec3 ℚ) ⟨3/5, -4/5, 0⟩ = 1 := by norm_num [dot]
  have hN : dot (refractionNormal (floorHit glass)) (refractionNormal (floorHit glass)) = 1 := by
    rw [sheetGlass_normal]
    norm_num [dot]
  have hval : 1 - ((2 : ℚ) / (floorHit glass).mat.refraction) *
      (2 / (floorHit glass).mat.refraction) *
      (1 - (-dot (refractionNormal (floorHit glass)) ⟨3/5, -4/5, 0⟩) *
        (-dot (refractionNormal (floorHit glass)) ⟨3/5, -4/5, 0⟩)) = 9 / 25 := by
    rw [sheetGlass_normal]
    norm_num [floorHit, glass, dot]
  ⟨⟨sceneGlass_oblique, rfl, by decide, hd, hN, hval⟩,
    refractionDir_unit sceneGlass glmQ ⟨-3/4, 1, 0⟩ ⟨3/5, -4/5, 0⟩ ObjectId.none 0 2
      (floorHit glass) sceneGlass_oblique rfl (by decide) hd hN
      (by rw [hval]; norm_num)
      (by
        rw [hval]
        show sqrtQ (9 / 25) * sqrtQ (9 / 25) = 9 / 25
        rw [sqrtQ_9_25]
        norm_num)
      sqrtQ_one⟩

/-- C18. The shadow test ignores the distance to the light.  In `sceneBehind`
the ray from `(0, 1, 0)` straight down hits the chalk floor (not refractive)
at the origin; the point light `lampQ` lies at distance 5 in direction
`lightDir = (3/5, 4/5, 0)` with `dot(normal, lightDir) = 4/5 > 0`, and the
only other primitive, the backdrop (not refractive), is met by the ray from
the hit point toward the light at distance 10, beyond the light.  `isShaded`
is true and `_renderPixel` returns the ambient color `1/4` without the diffuse
term, whereas without the backdrop (`sceneOpen`) it returns `13/20`. -/
theorem isShaded_ignores_light_distance :
    findNearestObject sceneBehind glmQ ⟨0, 1, 0⟩ ⟨0, -1, 0⟩ ObjectId.none false
      = some (floorHit chalk) ∧
    (floorHit chalk).mat.refract = false ∧
    sceneBehind.lights = [lampQ] ∧ lampQ.type = LightType.POINT ∧
    lightDirection glmQ lampQ (floorHit chalk).pos = ⟨3/5, 4/5, 0⟩ ∧
    dot (floorHit chalk).norm (lightDirection glmQ lampQ (floorHit chalk).pos) = 4 / 5 ∧
    TriangleHit sceneBehind glmQ (floorHit chalk).pos ⟨3/5, 4/5, 0⟩ 1 10 backdropHit ∧
    backdropHit.mat.refract = false ∧ backdropHit.id ≠ (floorHit chalk).id ∧
    distance glmQ (floorHit chalk).pos lampQ.position = 5 ∧
    isShaded sceneBehind glmQ (floorHit chalk).pos
      (lightDirection glmQ lampQ (floorHit chalk).pos) (floorHit chalk).id = true ∧
    _renderPixel sceneBehind glmQ 1 ⟨0, 1, 0⟩ ⟨0, -1, 0⟩ ObjectId.none DEPTH_LIMIT 1
      = some ⟨1/4, 1/4, 1/4⟩ ∧
    sceneBehind.bgColor * (floorHit chalk).mat.ambientFactor = ⟨1/4, 1/4, 1/4⟩ ∧
    _renderPixel sceneOpen glmQ 1 ⟨0, 1, 0⟩ ⟨0, -1, 0⟩ ObjectId.none DEPTH_LIMIT 1
      = some ⟨13/20, 13/20, 13/20⟩ := by
  have hpos : (floorHit chalk).pos = ⟨0, 0, 0⟩ := rfl
  refine ⟨sceneBehind_primary, rfl, rfl, rfl, ?_, ?_, ?_, rfl, by decide, ?_, ?_, ?_, ?_, ?_⟩
  · rw [hpos, lampQ_direction]
  · rw [hpos, lampQ_direction]
    norm_num [floorHit, dot]
  · refine ⟨backdropQ, ⟨1/4, 1/2, 10⟩, rfl, ?_, rfl, ?_⟩
    · rw [hpos]; exact backdrop_test
    · norm_num [backdropHit, backdropQ, floorHit, vec3_add_def, Vec3.scale]
  · norm_num [floorHit, lampQ, distance, length, glmQ, dot, vec3_sub_def, sqrtQ_25]
  · rw [hpos, lampQ_direction]
    exact sceneBehind_lamp_shaded
  · rw [renderPixel_depth_limit_eq sceneBehind glmQ _ _ _ _ _ _ (floorHit chalk) (le_refl _)
      sceneBehind_primary, chalk_localColor sceneBehind rfl rfl, sceneBehind_lamp_shaded]
    rfl
  · norm_num [sceneBehind, floorHit, chalk, vec3_mul_def]
  · rw [renderPixel_depth_limit_eq sceneOpen glmQ _ _ _ _ _ _ (floorHit chalk) (le_refl _)
      sceneOpen_primary, chalk_localColor sceneOpen rfl rfl, sceneOpen_lamp_unshaded]
    rfl

/-- C19. In a scene whose `bgColor`, light colors and intensities and material
factors (`ambientFactor`, `diffuseFactor`, `specularFactor`,
`reflectionFactor`, `refractionFactor`) are non-negative, for every ray and
depth `_renderPixel` returns a color (with enough fuel) and every component of
a returned color is non-negative (given `powf(t, s) ≥ 0` for `t > 0`).  No
upper bound of 1 holds: in `sceneBright`, where every factor is at most 1, the
returned color has components `129/100`. -/
theorem renderPixel_nonneg {α : Type} [LinearOrderedField α] (S : Scene α) (G : Glm α)
    (hpow : ∀ t s : α, 0 < t → 0 ≤ G.powf t s) (hS : S.NonNeg)
    (rayFrom normalizedRayDir : Vec3 α) (prevObjectID : ObjectId) (depth : Int) (rIndex : α) :
    (∃ c, _renderPixel S G ((DEPTH_LIMIT - depth).toNat + 1) rayFrom normalizedRayDir
        prevObjectID depth rIndex = some c) ∧
    (∀ (fuel : Nat) (c : Color α),
      _renderPixel S G fuel rayFrom normalizedRayDir prevObjectID depth rIndex = some c →
      0 ≤ c.x ∧ 0 ≤ c.y ∧ 0 ≤ c.z) ∧
    (sceneBright.NonNeg ∧
      _renderPixel sceneBright glmQ 1 ⟨0, 1, 0⟩ ⟨0, -1, 0⟩ ObjectId.none DEPTH_LIMIT 1
        = some ⟨129/100, 129/100, 129/100⟩) :=
  ⟨Option.isSome_iff_exists.mp
      (renderPixel_isSome S G _ rayFrom normalizedRayDir prevObjectID depth rIndex (le_refl _)),
    fun fuel c hc =>
      renderPixel_nonneg_of_some S G hpow hS fuel rayFrom normalizedRayDir prevObjectID depth
        rIndex c hc,
    sceneBright_nonneg,
    by rw [renderPixel_depth_limit_eq sceneBright glmQ _ _ _ _ _ _ (floorHit matte) (le_refl _)
      sceneBright_primary, sceneBright_localColor]⟩

/-- Witness for C19: the matte floor of `sceneBright` under the lamp. -/
theorem renderPixel_nonneg_witness :
    ((∀ t s : ℚ, 0 < t → 0 ≤ glmQ.powf t s) ∧ sceneBright.NonNeg) ∧
    (∀ (fuel : Nat) (c : Color ℚ),
      _renderPixel sceneBright glmQ fuel ⟨0, 1, 0⟩ ⟨0, -1, 0⟩ ObjectId.none 0 1 = some c →
      0 ≤ c.x ∧ 0 ≤ c.y ∧ 0 ≤ c.z) :=
  ⟨⟨glmQ_powf_nonneg, sceneBright_nonneg⟩,
    (renderPixel_nonneg sceneBright glmQ glmQ_powf_nonneg sceneBright_nonneg ⟨0, 1, 0⟩
      ⟨0, -1, 0⟩ ObjectId.none 0 1).2.1⟩

end CG3
